import Mathlib

/-!
# Verification of the power-bi-client workspace-provisioning engine

A shallow embedding, in Lean 4, of the orchestration core of the
`Marketing-BI/power-bi-client` TypeScript library, together with theorems
settling the frozen claims C1..C10 about it.

Conventions of the embedding:
* TypeScript values that may be `undefined`/`null` are modelled as `Option`;
  JavaScript truthiness of strings is `s ≠ ""`, of `Option` it is `isSome`
  (with `some ""` falsy where the source tests a string field).
* A JavaScript `TypeError` raised by a property access on `undefined` is an
  explicit error constructor.
* The remote Power BI service is an explicit environment (`Env`) of
  responses, and the observable effects of a run (workspaces existing on the
  service, HTTP calls issued, milliseconds slept, poll counters) are an
  explicit `World` threaded through a state-plus-exception monad `PBM`.
  Exceptions do not roll back `World` changes, exactly as remote side
  effects survive a thrown JS exception.
* Asynchronous suspension (`setTimeout`) is modelled by accumulating the
  requested milliseconds in the `World`.
-/

deriving instance DecidableEq for Except

/-! ## Enumerations and records (service/enums.ts, service/powerBI.interfaces.ts,
service/interfaces.pbi.ts) -/

/-- Status of one dataset refresh record (enum `PBIRefreshStatusEnum`). -/
inductive PBIRefreshStatusEnum where
  | Unknown
  | Completed
  | Failed
  | Disabled
deriving DecidableEq, Repr

/-- One dataset refresh record (`PBIRefresh`); fields not read by the code
under scrutiny (refreshType, requestId, serviceExceptionJson) are elided. -/
structure PBIRefresh where
  startTime : String
  endTime : String
  status : PBIRefreshStatusEnum
deriving DecidableEq, Repr

/-- The constant `REFRESH_FINAL_STATUSES` of powerBi.service.ts: note that it
does contain `Unknown`, which the helper below then filters out again. -/
def REFRESH_FINAL_STATUSES : List PBIRefreshStatusEnum :=
  [PBIRefreshStatusEnum.Failed, PBIRefreshStatusEnum.Completed,
   PBIRefreshStatusEnum.Disabled, PBIRefreshStatusEnum.Unknown]

namespace PowerBiService

/-- `PowerBiService.allRefreshesInFinalState` (powerBi.service.ts):

    return refreshes
      ? refreshes.filter((refresh) =>
          refresh.status !== PBIRefreshStatusEnum.Unknown
            && REFRESH_FINAL_STATUSES.includes(refresh.status),
        ).length === refreshes.length
      : false;

`none` models an absent (`undefined`/`null`) argument; an array, empty or
not, is truthy in JavaScript and takes the first branch. -/
def allRefreshesInFinalState : Option (List PBIRefresh) → Bool
  | some refreshes =>
      (refreshes.filter (fun refresh =>
        refresh.status != PBIRefreshStatusEnum.Unknown
          && REFRESH_FINAL_STATUSES.contains refresh.status)).length == refreshes.length
  | none => false

end PowerBiService

/-- The per-record predicate of `allRefreshesInFinalState`, evaluated by
status: it holds exactly for Completed, Failed and Disabled. -/
theorem finalStatus_pred_iff (s : PBIRefreshStatusEnum) :
    ((s != PBIRefreshStatusEnum.Unknown && REFRESH_FINAL_STATUSES.contains s) = true)
      ↔ (s = PBIRefreshStatusEnum.Completed ∨ s = PBIRefreshStatusEnum.Failed
          ∨ s = PBIRefreshStatusEnum.Disabled) := by
  cases s <;> simp [REFRESH_FINAL_STATUSES]

/-- A filter keeps every element exactly when its length is unchanged. -/
theorem length_filter_eq_iff {α : Type} (p : α → Bool) (l : List α) :
    ((l.filter p).length == l.length) = true ↔ ∀ a ∈ l, p a = true := by
  rw [beq_iff_eq]
  constructor
  · intro h
    exact List.filter_eq_self.mp ((List.filter_sublist l).eq_of_length h)
  · intro h
    rw [List.filter_eq_self.mpr h]

/-- C1. `allRefreshesInFinalState`: an absent input yields false; an empty
list yields true; a list yields true iff every record's status is one of
Completed, Failed, Disabled — a record with status Unknown makes the result
false even though Unknown is listed in `REFRESH_FINAL_STATUSES`. -/
theorem C1_allRefreshesInFinalState :
    PowerBiService.allRefreshesInFinalState none = false
    ∧ PowerBiService.allRefreshesInFinalState (some []) = true
    ∧ (∀ l : List PBIRefresh,
        PowerBiService.allRefreshesInFinalState (some l) = true
          ↔ ∀ r ∈ l, r.status = PBIRefreshStatusEnum.Completed
              ∨ r.status = PBIRefreshStatusEnum.Failed
              ∨ r.status = PBIRefreshStatusEnum.Disabled)
    ∧ (∀ l : List PBIRefresh, ∀ r ∈ l, r.status = PBIRefreshStatusEnum.Unknown →
        PowerBiService.allRefreshesInFinalState (some l) = false)
    ∧ PBIRefreshStatusEnum.Unknown ∈ REFRESH_FINAL_STATUSES := by
  refine ⟨rfl, rfl, ?_, ?_, by simp [REFRESH_FINAL_STATUSES]⟩
  · intro l
    unfold PowerBiService.allRefreshesInFinalState
    rw [length_filter_eq_iff]
    constructor
    · intro h r hr
      exact (finalStatus_pred_iff r.status).mp (h r hr)
    · intro h r hr
      exact (finalStatus_pred_iff r.status).mpr (h r hr)
  · intro l r hr hu
    rcases Bool.eq_false_or_eq_true
        ((l.filter (fun refresh =>
          refresh.status != PBIRefreshStatusEnum.Unknown
            && REFRESH_FINAL_STATUSES.contains refresh.status)).length == l.length)
      with h | h
    · exfalso
      have := (length_filter_eq_iff _ l).mp h r hr
      rw [hu] at this
      simp at this
    · exact h

/-! ## Response-envelope unwrapping of the facade's listing operations (C7)

Each listing method of `PowerBiService` receives a parsed `PBIResponse`
envelope carrying a `value` array, and unwraps it. The functions below
model, per method, exactly the unwrapping expression of the source. -/

/-- A parsed `PBIResponse` envelope; `value = none` models an envelope whose
value array is absent. -/
structure PBIResponseEnvelope (α : Type) where
  value : Option (List α)
deriving DecidableEq, Repr

namespace PowerBiService

/-- Unwrapping in `listReportsInGroup`:
`respBody.value && respBody.value.length > 0 ? value : new Array()`. -/
def listReportsInGroupValue {α : Type} (respBody : PBIResponseEnvelope α) : List α :=
  match respBody.value with
  | some v => if v.length > 0 then v else []
  | none => []

/-- Unwrapping in `listDatasetsInGroup` (same guarded shape as the report
listing). -/
def listDatasetsInGroupValue {α : Type} (respBody : PBIResponseEnvelope α) : List α :=
  match respBody.value with
  | some v => if v.length > 0 then v else []
  | none => []

/-- Unwrapping in `getGroupUsers`: the source returns
`(await HttpHandler.handleHttpCall(...)).value` with no default — the raw
value, which is `undefined` when absent. -/
def getGroupUsersValue {α : Type} (respBody : PBIResponseEnvelope α) : Option (List α) :=
  respBody.value

/-- Unwrapping in `getGroupDatasets`: the source returns `response.value`
with no default. -/
def getGroupDatasetsValue {α : Type} (response : PBIResponseEnvelope α) : Option (List α) :=
  response.value

/-- Unwrapping in `getDatasetRefreshes`:
`response?.value ? response.value : new Array<PBIRefresh>()`. An array is
truthy in JavaScript even when empty. -/
def getDatasetRefreshesValue {α : Type} (response : Option (PBIResponseEnvelope α)) : List α :=
  match response with
  | some r =>
      match r.value with
      | some v => v
      | none => []
  | none => []

end PowerBiService

/-- Placeholder element type for envelope counterexamples: a group user as
returned by the users listing (only the fields the orchestration reads). -/
structure PBIGroupUser where
  identifier : String
deriving DecidableEq, Repr

/-- C7, counterexample: `getGroupUsers` unwraps the envelope with no default,
so an envelope whose value array is absent makes the caller receive
`undefined` (modelled `none`), not an empty sequence. -/
theorem C7_counterexample_getGroupUsers_undefined :
    PowerBiService.getGroupUsersValue (⟨none⟩ : PBIResponseEnvelope PBIGroupUser) = none
    ∧ PowerBiService.getGroupUsersValue (⟨none⟩ : PBIResponseEnvelope PBIGroupUser) ≠ some []
    ∧ PowerBiService.getGroupDatasetsValue (⟨none⟩ : PBIResponseEnvelope PBIGroupUser) = none := by
  refine ⟨rfl, ?_, rfl⟩
  intro h
  simp [PowerBiService.getGroupUsersValue] at h

/-- C7, amended: the guarded listings (reports, datasets via
`listDatasetsInGroup`, refreshes) default to an empty sequence when the
envelope or its value array is absent and forward a non-empty value
unchanged, but `getGroupUsers` and `getGroupDatasets` return the envelope's
raw value, which is `undefined` exactly when the value is absent. -/
theorem C7_listing_unwrap_spec :
    ∀ (α : Type) (resp : PBIResponseEnvelope α),
      (resp.value = none →
        PowerBiService.listReportsInGroupValue resp = []
          ∧ PowerBiService.listDatasetsInGroupValue resp = []
          ∧ PowerBiService.getDatasetRefreshesValue (some resp) = [])
      ∧ (∀ v : List α, resp.value = some v → v ≠ [] →
          PowerBiService.listReportsInGroupValue resp = v
            ∧ PowerBiService.listDatasetsInGroupValue resp = v
            ∧ PowerBiService.getDatasetRefreshesValue (some resp) = v)
      ∧ PowerBiService.getDatasetRefreshesValue (α := α) none = []
      ∧ PowerBiService.getGroupUsersValue resp = resp.value
      ∧ PowerBiService.getGroupDatasetsValue resp = resp.value := by
  intro α resp
  refine ⟨?_, ?_, rfl, rfl, rfl⟩
  · intro h
    simp [PowerBiService.listReportsInGroupValue, PowerBiService.listDatasetsInGroupValue,
      PowerBiService.getDatasetRefreshesValue, h]
  · intro v hv hne
    have hlen : 0 < v.length := List.length_pos.mpr hne
    simp [PowerBiService.listReportsInGroupValue, PowerBiService.listDatasetsInGroupValue,
      PowerBiService.getDatasetRefreshesValue, hv, hlen]

/-! ## PowerBiClient.groupDatasetRefreshed (C10) -/

/-- A JavaScript runtime error: the `TypeError` raised when a property of
`undefined` is read. -/
inductive JsError where
  | typeError
deriving DecidableEq, Repr

/-- Result shape of `groupDatasetRefreshed` (`DatasetRefreshInfo`). -/
structure DatasetRefreshInfo where
  allInFinalState : Bool
  lastRefreshSuccessful : Bool
deriving DecidableEq, Repr

namespace PowerBiClient

/-- `PowerBiClient.groupDatasetRefreshed` (PowerBiClient.ts), applied to the
refresh list fetched for the dataset:

    const allInFinalState = this._powerBiService.allRefreshesInFinalState(refreshes);
    let lastRefreshSuccessful = false;
    if (allInFinalState) {
      refreshes.sort((o1, o2) => (o1.endTime < o2.endTime ? -1 : 1));
      lastRefreshSuccessful = refreshes[refreshes.length - 1].status === Completed;
    }
    return ... ;

The in-place sort is modelled by `mergeSort` on `endTime`; indexing past
the end yields `undefined`, whose `.status` access raises a `TypeError`. -/
def groupDatasetRefreshed (refreshes : List PBIRefresh) : Except JsError DatasetRefreshInfo :=
  let allInFinalState := PowerBiService.allRefreshesInFinalState (some refreshes)
  if allInFinalState then
    let sorted := refreshes.mergeSort (fun o1 o2 => decide (o1.endTime < o2.endTime))
    match sorted.get? (sorted.length - 1) with
    | some last =>
        Except.ok ⟨allInFinalState, last.status == PBIRefreshStatusEnum.Completed⟩
    | none => Except.error JsError.typeError
  else
    Except.ok ⟨allInFinalState, false⟩

end PowerBiClient

/-- C10. With an empty refresh history, `allRefreshesInFinalState` is true,
so the code indexes the empty array at position -1 and reads `.status` of
`undefined`: `groupDatasetRefreshed` raises a `TypeError` rather than
returning the record with `allInFinalState = true`,
`lastRefreshSuccessful = false`. -/
theorem C10_groupDatasetRefreshed_empty_throws :
    PowerBiClient.groupDatasetRefreshed [] = Except.error JsError.typeError
    ∧ PowerBiService.allRefreshesInFinalState (some []) = true
    ∧ PowerBiClient.groupDatasetRefreshed []
        ≠ Except.ok { allInFinalState := true, lastRefreshSuccessful := false } := by
  have h1 : PowerBiClient.groupDatasetRefreshed [] = Except.error JsError.typeError := by
    simp [PowerBiClient.groupDatasetRefreshed, PowerBiService.allRefreshesInFinalState]
  refine ⟨h1, rfl, ?_⟩
  intro h
  rw [h1] at h
  exact Except.noConfusion h

/-! ## Transport layer: HttpHandler with 429 retry (httpHandler/HttpHandler.ts, C4)

The environment of one call is the sequence of responses the `fetch`
attempts of that call would receive, plus a date-parsing oracle modelling
`new Date(header).getTime()` and the current clock. JavaScript numbers that
can be NaN are modelled as `Option Int` with `none` for NaN. Content-type
based body decoding (XML charset handling, zip) is abstracted: the decoded
body travels as an opaque string. -/

/-- JavaScript `parseInt(s, 10)`: skip leading whitespace, an optional sign,
then the longest run of decimal digits; NaN (`none`) when no digit is
found. -/
def jsParseInt (s : String) : Option Int :=
  let cs := s.toList.dropWhile (fun c => c = ' ' ∨ c = '\t' ∨ c = '\n' ∨ c = '\r')
  let signed : Bool × List Char :=
    match cs with
    | '-' :: rest => (true, rest)
    | '+' :: rest => (false, rest)
    | _ => (false, cs)
  let digits := signed.2.takeWhile Char.isDigit
  if digits.isEmpty then none
  else
    let n : Nat := digits.foldl (fun acc c => acc * 10 + (c.toNat - '0'.toNat)) 0
    some (if signed.1 then -(n : Int) else (n : Int))

/-- `Math.ceil(delayMs / 1000)` on an integral number of milliseconds. -/
def jsCeilDiv1000 (a : Int) : Int := -((-a).fdiv 1000)

/-- One `fetch` response as the handler reads it: status, status text, the
`Retry-After` header (absent allowed) and the decoded body. `ok` is derived
from the status exactly as `node-fetch` does. -/
structure FetchResponse where
  status : Nat
  statusText : String
  retryAfter : Option String
  body : String
deriving DecidableEq, Repr

/-- `Response.ok`: status in the inclusive-exclusive range 200..300. -/
def FetchResponse.ok (r : FetchResponse) : Bool :=
  decide (200 ≤ r.status ∧ r.status < 300)

/-- The data carried by the `HttpError` raised with
`ERROR_MESSAGES.COMMUNICATION_ERROR`. -/
structure CommunicationError where
  status : Nat
  statusText : String
deriving DecidableEq, Repr

/-- Remote behavior for one `handleHttpCall` invocation. -/
structure HttpEnv where
  fetchResp : Nat → FetchResponse
  dateMs : String → Option Int
  nowMs : Int

namespace HttpHandler

/-- The constant `ERROR_TOO_MANY_REQUESTS = 429`. -/
def ERROR_TOO_MANY_REQUESTS : Nat := 429

/-- `HttpHandler.getRetryAfterSeconds`: absent header defaults to 60;
an integer header is `parseInt`-ed; otherwise it is parsed as a date and
`Math.max(1, Math.ceil((date - now) / 1000))` is taken. An invalid date
makes every step NaN (`none`), faithfully to the JavaScript arithmetic. -/
def getRetryAfterSeconds (dateMs : String → Option Int) (nowMs : Int) :
    Option String → Option Int
  | none => some 60
  | some retryAfterHeader =>
      match jsParseInt retryAfterHeader with
      | some seconds => some seconds
      | none =>
          match dateMs retryAfterHeader with
          | some t => some (max 1 (jsCeilDiv1000 (t - nowMs)))
          | none => none

/-- `HttpHandler.handleHttpResponse`, error path included: a non-ok response
raises a communication error carrying status and status text; an ok response
yields the decoded body. -/
def handleHttpResponse (res : FetchResponse) : Except CommunicationError String :=
  if res.ok then Except.ok res.body
  else Except.error { status := res.status, statusText := res.statusText }

/-- Observable trace of one `handleHttpCall`: how many fetch attempts ran,
the one suspension (in ms, NaN-able) if any, and the outcome. -/
structure HttpCallTrace where
  attempts : Nat
  sleptMs : Option (Option Int)
  outcome : Except CommunicationError String
deriving DecidableEq, Repr

/-- `HttpHandler.handleHttpCall` (the retrying variant): fetch once; on
status 429 read `Retry-After`, sleep `delaySeconds * 1000` ms and fetch the
identical request once more; then hand the (second) response to
`handleHttpResponse`. -/
def handleHttpCall (env : HttpEnv) : HttpCallTrace :=
  let response := env.fetchResp 0
  if response.status = ERROR_TOO_MANY_REQUESTS then
    let retryAfterHeader := response.retryAfter
    let delaySeconds := getRetryAfterSeconds env.dateMs env.nowMs retryAfterHeader
    let delayMs := delaySeconds.map (· * 1000)
    let response2 := env.fetchResp 1
    { attempts := 2, sleptMs := some delayMs, outcome := handleHttpResponse response2 }
  else
    { attempts := 1, sleptMs := none, outcome := handleHttpResponse response }

end HttpHandler

/-- C4. Retry policy of the transport layer: a first 429 causes exactly one
retry after `getRetryAfterSeconds * 1000` ms, where the seconds come from
the integer header, the header parsed as a date, or default 60 when absent;
any non-ok response reaching `handleHttpResponse` — the retried one, or a
non-429 first response, which is never retried — surfaces as a communication
error with status and status text; at most two fetch attempts ever occur. -/
theorem C4_handleHttpCall_retry_policy :
    (∀ env : HttpEnv, (HttpHandler.handleHttpCall env).attempts ≤ 2)
    ∧ (∀ env : HttpEnv, (env.fetchResp 0).status = 429 →
        HttpHandler.handleHttpCall env =
          { attempts := 2,
            sleptMs := some ((HttpHandler.getRetryAfterSeconds env.dateMs env.nowMs
                (env.fetchResp 0).retryAfter).map (· * 1000)),
            outcome := HttpHandler.handleHttpResponse (env.fetchResp 1) })
    ∧ (∀ env : HttpEnv, (env.fetchResp 0).status ≠ 429 →
        HttpHandler.handleHttpCall env =
          { attempts := 1, sleptMs := none,
            outcome := HttpHandler.handleHttpResponse (env.fetchResp 0) })
    ∧ (∀ res : FetchResponse, res.ok = false →
        HttpHandler.handleHttpResponse res =
          Except.error { status := res.status, statusText := res.statusText })
    ∧ (∀ res : FetchResponse, res.status = 429 → res.ok = false)
    ∧ (∀ (dateMs : String → Option Int) (nowMs : Int),
        HttpHandler.getRetryAfterSeconds dateMs nowMs none = some 60)
    ∧ (∀ (dateMs : String → Option Int) (nowMs : Int) (s : String) (n : Int),
        jsParseInt s = some n →
          HttpHandler.getRetryAfterSeconds dateMs nowMs (some s) = some n)
    ∧ (∀ (dateMs : String → Option Int) (nowMs t : Int) (s : String),
        jsParseInt s = none → dateMs s = some t →
          HttpHandler.getRetryAfterSeconds dateMs nowMs (some s) =
            some (max 1 (jsCeilDiv1000 (t - nowMs))))
    ∧ HttpHandler.getRetryAfterSeconds (fun _ => none) 0 (some "2") = some 2 := by
  refine ⟨?_, ?_, ?_, ?_, ?_, ?_, ?_, ?_, by decide⟩
  · intro env
    by_cases h : (env.fetchResp 0).status = 429 <;>
      simp [HttpHandler.handleHttpCall, HttpHandler.ERROR_TOO_MANY_REQUESTS, h]
  · intro env h
    simp [HttpHandler.handleHttpCall, HttpHandler.ERROR_TOO_MANY_REQUESTS, h]
  · intro env h
    simp [HttpHandler.handleHttpCall, HttpHandler.ERROR_TOO_MANY_REQUESTS, h]
  · intro res h
    simp [HttpHandler.handleHttpResponse, h]
  · intro res h
    simp [FetchResponse.ok, h]
  · intro dateMs nowMs
    rfl
  · intro dateMs nowMs s n h
    simp [HttpHandler.getRetryAfterSeconds, h]
  · intro dateMs nowMs t s h hd
    simp [HttpHandler.getRetryAfterSeconds, h, hd]

/-! ## Error taxonomy (service/dto/errors/PowerBiError.ts)

One constructor per `ERROR_MESSAGES` entry the modelled code raises, plus
the JavaScript `TypeError` of a property access on `undefined`, plus a fuel
marker standing for non-termination of the unbounded import-publishing
poll. -/

/-- Errors a modelled operation can raise. -/
inductive PBErr where
  | missingInitConfiguration
  | missingRequiredParam (params : String)
  | unexpectedCreationError
  | failedImport
  | unknownResource (resourceName resourceId : String)
  | typeErr
  | outOfFuel
deriving DecidableEq, Repr

/-! ## Credential and parameter templating (service/dto/powerBiConfig.dto.ts,
service/interfaces.ts; C8, C9) -/

/-- JavaScript truthiness of an optional string: absent and empty are
falsy. -/
def jsTruthyStr : Option String → Bool
  | some v => v != ""
  | none => false

/-- Enum `CredentialTemplateItemEnum`. -/
inductive CredentialTemplateItemEnum where
  | USERNAME
  | PASSWORD
  | SA_JSON
deriving DecidableEq, Repr

/-- One item of a declarative credentials template
(`CredentialTemplateItem`). -/
structure CredentialTemplateItem where
  type : CredentialTemplateItemEnum
  name : String
  overrideValue : Option String
deriving DecidableEq, Repr

/-- Enum `DatasourceParamTemplateItemEnum`. -/
inductive DatasourceParamTemplateItemEnum where
  | DATABASE_NAME
  | HOSTNAME
  | WAREHOUSE
  | SCHEMA
deriving DecidableEq, Repr

/-- One item of a datasource-parameter template. -/
structure DatasourceParamTemplateItem where
  type : DatasourceParamTemplateItemEnum
  name : String
deriving DecidableEq, Repr

/-- Tenant warehouse credentials (`ISnowflakeCredentials`; the optional
`port` is read by none of the modelled code). -/
structure ISnowflakeCredentials where
  host : String
  user : String
  password : String
  warehouse : String
  schema : String
  database : String
deriving DecidableEq, Repr

/-- A resolved name/value credential entry (`PBICredentialDataItem`). -/
structure PBICredentialDataItem where
  name : String
  value : String
deriving DecidableEq, Repr

/-- A resolved placeholder/replacement pair (`PBIDatasourceParam`). -/
structure PBIDatasourceParam where
  name : String
  newValue : String
deriving DecidableEq, Repr

/-- Enum `PBICredentialTypeEnum` (only `Basic` is produced here). -/
inductive PBICredentialTypeEnum where
  | Anonymous
  | Basic
  | Key
  | OAuth2
  | Windows
deriving DecidableEq, Repr

/-- Enum `PBIEncryptedConnectionEnum`. -/
inductive PBIEncryptedConnectionEnum where
  | Encrypted
  | NotEncrypted
deriving DecidableEq, Repr

/-- Enum `PBIEncryptionAlgorithmEnum` (`RSAOAEP` spells the source's
RSA-OAEP member). -/
inductive PBIEncryptionAlgorithmEnum where
  | None
  | RSAOAEP
deriving DecidableEq, Repr

/-- Enum `PBIPrivacyLevelEnum`. -/
inductive PBIPrivacyLevelEnum where
  | None
  | Organizational
  | Private
  | Public
deriving DecidableEq, Repr

/-- The wire credential payload (`PBICredentialDetails`). The source stores
`credentials` as the JSON string of the credential-data list; serialization
is abstracted and the list kept as data, with an `undefined` entry (which
`JSON.stringify` renders as `null`) kept as `none`. -/
structure PBICredentialDetails where
  credentialType : PBICredentialTypeEnum
  credentialData : List (Option PBICredentialDataItem)
  encryptedConnection : PBIEncryptedConnectionEnum
  encryptionAlgorithm : PBIEncryptionAlgorithmEnum
  privacyLevel : PBIPrivacyLevelEnum
  useEndUserOAuth2Credentials : Bool
deriving DecidableEq, Repr

/-- `mapCredentials` (powerBiConfig.dto.ts): a truthy override value wins;
otherwise the item's type tag selects a tenant-credential field. The
source's switch has no `SA_JSON` arm and no default, so that case falls off
the end of the function and yields `undefined` (`none`). -/
def mapCredentials (templateItem : CredentialTemplateItem)
    (snowflakeCredentialDetails : ISnowflakeCredentials) : Option PBICredentialDataItem :=
  if jsTruthyStr templateItem.overrideValue then
    some { name := templateItem.name, value := templateItem.overrideValue.getD "" }
  else
    match templateItem.type with
    | CredentialTemplateItemEnum.PASSWORD =>
        some { name := templateItem.name, value := snowflakeCredentialDetails.password }
    | CredentialTemplateItemEnum.USERNAME =>
        some { name := templateItem.name, value := snowflakeCredentialDetails.user }
    | CredentialTemplateItemEnum.SA_JSON => none

/-- `mapDatasourceParam` (powerBiConfig.dto.ts): every enum member has an
arm, so this one is total. -/
def mapDatasourceParam (templateItem : DatasourceParamTemplateItem)
    (snowflakeCredentialDetails : ISnowflakeCredentials) : PBIDatasourceParam :=
  match templateItem.type with
  | DatasourceParamTemplateItemEnum.DATABASE_NAME =>
      { name := templateItem.name, newValue := snowflakeCredentialDetails.database }
  | DatasourceParamTemplateItemEnum.HOSTNAME =>
      { name := templateItem.name, newValue := snowflakeCredentialDetails.host }
  | DatasourceParamTemplateItemEnum.SCHEMA =>
      { name := templateItem.name, newValue := snowflakeCredentialDetails.schema }
  | DatasourceParamTemplateItemEnum.WAREHOUSE =>
      { name := templateItem.name, newValue := snowflakeCredentialDetails.warehouse }

/-- `createBasicCredentials` (powerBiConfig.dto.ts). -/
def createBasicCredentials
    (credentialData : List (Option PBICredentialDataItem)) : PBICredentialDetails :=
  { credentialType := PBICredentialTypeEnum.Basic,
    credentialData := credentialData,
    encryptedConnection := PBIEncryptedConnectionEnum.NotEncrypted,
    encryptionAlgorithm := PBIEncryptionAlgorithmEnum.None,
    privacyLevel := PBIPrivacyLevelEnum.None,
    useEndUserOAuth2Credentials := false }

/-- Source-system configuration consumed by the constructor
(`ISourceSystemPBIConfig`). -/
structure ISourceSystemPBIConfig where
  pathToTemplateFile : String
  templateGroupId : String
  credentialsTemplate : Option (List CredentialTemplateItem)
  datasourceParamsTemplate : Option (List DatasourceParamTemplateItem)
deriving DecidableEq, Repr

/-- Schedule descriptor (`IDatasetSchedule`): `times` is required, `days`
optional. -/
structure IDatasetSchedule where
  times : List String
  days : Option (List String)
deriving DecidableEq, Repr

/-- The constructed configuration object (`PowerBiConfigDto`), without the
mutable memoized template (modelled separately as `TemplateCache`). -/
structure PowerBiConfigDto where
  name : String
  capacityId : Option String
  datasourceCredentials : Option PBICredentialDetails
  datasourceParams : List PBIDatasourceParam
  scheduledTimes : Option (List String)
  scheduledDays : Option (List String)
  pathToTemplateFile : String
  templateGroupId : String
deriving DecidableEq, Repr

namespace PowerBiConfigDto

/-- The `PowerBiConfigDto` constructor (powerBiConfig.dto.ts, the
username/password credential flavor). The source constructor contains no
throw statement; the `Except` result type gives a construction-time error a
place to appear, and the theorems establish that none ever does. An empty
`credentialsTemplate` array is truthy in JavaScript, so it still creates a
(empty) credential payload; absent template leaves the field `undefined`. -/
def construct (name : String) (snowflakeCredentialDetails : ISnowflakeCredentials)
    (sourceSystemPBIConfig : ISourceSystemPBIConfig)
    (schedule : Option IDatasetSchedule) (capacityId : Option String) :
    Except PBErr PowerBiConfigDto :=
  Except.ok
    { name := name,
      capacityId := capacityId,
      datasourceCredentials :=
        match sourceSystemPBIConfig.credentialsTemplate with
        | some credentialsTemplate =>
            some (createBasicCredentials
              (credentialsTemplate.map (fun templateItem =>
                mapCredentials templateItem snowflakeCredentialDetails)))
        | none => none,
      datasourceParams :=
        match sourceSystemPBIConfig.datasourceParamsTemplate with
        | some datasourceParamsTemplate =>
            datasourceParamsTemplate.map (fun item =>
              mapDatasourceParam item snowflakeCredentialDetails)
        | none => [],
      scheduledTimes :=
        match schedule with
        | some s => if s.times.length > 0 then some s.times else none
        | none => none,
      scheduledDays :=
        match schedule with
        | some s =>
            match s.days with
            | some d => if d.length > 0 then some d else none
            | none => none
        | none => none,
      pathToTemplateFile := sourceSystemPBIConfig.pathToTemplateFile,
      templateGroupId := sourceSystemPBIConfig.templateGroupId }

/-- The mutable template slot of a config instance, with an invocation
counter for the caller-supplied loader. -/
structure TemplateCache (α : Type) where
  template : Option α
  supplierCalls : Nat
deriving Repr

/-- `PowerBiConfigDto.getTemplate`:

    if (this.template === undefined || this.template === null)
      this.template = await this._templateSupplier(this._pathToTemplateFile);
    return this.template;

The loader is modelled as a function of its invocation index so the
theorems can say which invocation produced the bytes that were kept. -/
def getTemplate {α : Type} (templateSupplier : Nat → α) (c : TemplateCache α) :
    α × TemplateCache α :=
  match c.template with
  | none =>
      let loaded := templateSupplier c.supplierCalls
      (loaded, { template := some loaded, supplierCalls := c.supplierCalls + 1 })
  | some b => (b, c)

/-- N sequential `getTemplate()` calls against one config instance,
collecting every returned value and the final cache state. -/
def getTemplateRuns {α : Type} (templateSupplier : Nat → α) :
    Nat → TemplateCache α → List α × TemplateCache α
  | 0, c => ([], c)
  | n + 1, c =>
      let r := getTemplate templateSupplier c
      let rest := getTemplateRuns templateSupplier n r.2
      (r.1 :: rest.1, rest.2)

end PowerBiConfigDto

/-- Once the template slot is populated, further calls re-invoke nothing and
return the cached bytes. -/
theorem getTemplateRuns_cached {α : Type} (templateSupplier : Nat → α) (n : Nat)
    (b : α) (k : Nat) :
    PowerBiConfigDto.getTemplateRuns templateSupplier n ⟨some b, k⟩ =
      (List.replicate n b, ⟨some b, k⟩) := by
  induction n with
  | zero => rfl
  | succ n ih =>
      simp [PowerBiConfigDto.getTemplateRuns, PowerBiConfigDto.getTemplate, ih,
        List.replicate]

/-- C9. Memoization law of `getTemplate`: across N+1 sequential calls on a
fresh config instance the loader runs exactly once, every call returns the
bytes of that first invocation, and the cache holds them. -/
theorem C9_getTemplate_memoization :
    ∀ (α : Type) (templateSupplier : Nat → α) (n : Nat),
      (PowerBiConfigDto.getTemplateRuns templateSupplier (n + 1) ⟨none, 0⟩).2.supplierCalls = 1
      ∧ (PowerBiConfigDto.getTemplateRuns templateSupplier (n + 1) ⟨none, 0⟩).1 =
          List.replicate (n + 1) (templateSupplier 0)
      ∧ (PowerBiConfigDto.getTemplateRuns templateSupplier (n + 1) ⟨none, 0⟩).2.template =
          some (templateSupplier 0) := by
  intro α templateSupplier n
  have h : PowerBiConfigDto.getTemplateRuns templateSupplier (n + 1) ⟨none, 0⟩ =
      (templateSupplier 0 :: List.replicate n (templateSupplier 0),
        ⟨some (templateSupplier 0), 1⟩) := by
    simp [PowerBiConfigDto.getTemplateRuns, PowerBiConfigDto.getTemplate,
      getTemplateRuns_cached]
  rw [h]
  exact ⟨rfl, rfl, rfl⟩

/-- Concrete inputs for the C8 counterexample: a credential-template item
whose type tag (`SA_JSON`) has no mapping on the username/password tenant
credential object and which carries no override value. -/
def c8Item : CredentialTemplateItem :=
  { type := CredentialTemplateItemEnum.SA_JSON, name := "username", overrideValue := none }

/-- Concrete tenant credentials for the C8 counterexample. -/
def c8Snowflake : ISnowflakeCredentials :=
  { host := "h", user := "u", password := "pw", warehouse := "w",
    schema := "s", database := "d" }

/-- Concrete source-system configuration for the C8 counterexample. -/
def c8SourceCfg : ISourceSystemPBIConfig :=
  { pathToTemplateFile := "templates/sales.pbix", templateGroupId := "tg1",
    credentialsTemplate := some [c8Item], datasourceParamsTemplate := none }

/-- C8, counterexample: constructing a `PowerBiConfigDto` whose credential
template contains an unmapped item raises nothing — the constructor
succeeds and silently carries an `undefined` credential entry, so no
configuration error is detected at construction time. -/
theorem C8_counterexample_construct_succeeds :
    PowerBiConfigDto.construct "Sales" c8Snowflake c8SourceCfg none none =
      Except.ok
        { name := "Sales", capacityId := none,
          datasourceCredentials := some (createBasicCredentials [none]),
          datasourceParams := [], scheduledTimes := none, scheduledDays := none,
          pathToTemplateFile := "templates/sales.pbix", templateGroupId := "tg1" }
    ∧ mapCredentials c8Item c8Snowflake = none := by
  exact ⟨rfl, rfl⟩

/-- C8, amended: construction never raises — for every input the constructor
returns a config — and an item whose type tag has no mapping (`SA_JSON` on
the username/password flavor) and no truthy override resolves to
`undefined`, carried as a null entry of the credential payload rather than
reported as an error, at construction time or ever. -/
theorem C8_construct_never_raises_unmapped_is_null :
    (∀ (name : String) (sc : ISnowflakeCredentials) (cfg : ISourceSystemPBIConfig)
        (schedule : Option IDatasetSchedule) (capacityId : Option String),
        (PowerBiConfigDto.construct name sc cfg schedule capacityId).isOk = true)
    ∧ (∀ (templateItem : CredentialTemplateItem) (sc : ISnowflakeCredentials),
        jsTruthyStr templateItem.overrideValue = false →
          templateItem.type = CredentialTemplateItemEnum.SA_JSON →
            mapCredentials templateItem sc = none)
    ∧ (∀ (name : String) (sc : ISnowflakeCredentials) (cfg : ISourceSystemPBIConfig)
        (schedule : Option IDatasetSchedule) (capacityId : Option String)
        (items : List CredentialTemplateItem),
        cfg.credentialsTemplate = some items →
          (PowerBiConfigDto.construct name sc cfg schedule capacityId).toOption.bind
              (fun r => r.datasourceCredentials) =
            some (createBasicCredentials
              (items.map (fun templateItem => mapCredentials templateItem sc)))) := by
  refine ⟨?_, ?_, ?_⟩
  · intro name sc cfg schedule capacityId
    rfl
  · intro templateItem sc hov hty
    simp [mapCredentials, hov, hty]
  · intro name sc cfg schedule capacityId items h
    simp [PowerBiConfigDto.construct, h, Except.toOption]

/-! ## The provisioning orchestrator (service/powerBi.service.ts; C2, C3, C5, C6)

The remote Power BI service is an environment `Env` of responses; the
observable state of a run is a `World`: workspaces existing on the service,
the per-call index into each poll stream, accumulated suspension time, and
the ordered trace of HTTP calls issued. Computations live in `PBM`, a
state-plus-exception monad in which a thrown error does NOT roll the state
back — side effects performed before a JavaScript exception survive it. -/

/-- A workspace (`PBIGroup`), the fields the orchestration reads. -/
structure PBIGroup where
  id : String
  name : String
deriving DecidableEq, Repr

/-- The `importState` member of `PBIImport`. -/
inductive PBIImportState where
  | Failed
  | Publishing
  | Succeeded
deriving DecidableEq, Repr

/-- An import-operation record (`PBIImport`), the fields the orchestration
reads. -/
structure PBIImport where
  id : String
  importState : PBIImportState
deriving DecidableEq, Repr

/-- A dataset record as read from `getGroupDatasets`. -/
structure PBIDataset where
  id : String
  name : String
deriving DecidableEq, Repr

/-- A datasource (`PBIDatasource`), the fields the orchestration reads. -/
structure PBIDatasource where
  gatewayId : String
  datasourceId : String
deriving DecidableEq, Repr

/-- A report (`PBIReport`), the fields the orchestration reads. -/
structure PBIReport where
  id : String
  name : String
  webUrl : String
  embedUrl : String
  datasetId : String
deriving DecidableEq, Repr

/-- A report page (`PBIReportPage`). -/
structure PBIReportPage where
  name : String
  displayName : String
  order : Nat
deriving DecidableEq, Repr

/-- `ReportPageType` of the public result shape. -/
structure ReportPageType where
  name : String
  displayName : String
  order : Nat
deriving DecidableEq, Repr

/-- `PBIClientInitReportType` of the public result shape. -/
structure PBIClientInitReportType where
  id : String
  name : String
  embedUrl : String
  webUrl : String
  pages : List ReportPageType
deriving DecidableEq, Repr

/-- `PBIClientInitResultType`, the public provisioning result. -/
structure PBIClientInitResultType where
  workspaceId : String
  dataRefreshed : Bool
  name : String
  datasetId : String
  datasourceId : String
  reports : List PBIClientInitReportType
deriving DecidableEq, Repr

/-- Observable state of one run. -/
structure World where
  groups : List PBIGroup
  importPollCount : Nat
  refreshPollCount : Nat
  sleptMs : Nat
  trace : List String
deriving DecidableEq, Repr

/-- Responses of the remote service and of the injected collaborators:
the id the service assigns to a created workspace, users per workspace,
the initial import response, the two poll streams indexed by call number,
the datasets envelope value (`none` when absent, see C7), datasources,
reports, pages per report, visible capacity ids, and the template bytes the
caller-supplied loader yields. -/
structure Env where
  createdGroupId : String
  usersOf : String → List PBIGroupUser
  importResp : PBIImport
  importPoll : Nat → PBIImport
  datasetsResp : Option (List PBIDataset)
  datasourcesResp : List PBIDatasource
  refreshPoll : Nat → List PBIRefresh
  reportsResp : List PBIReport
  pagesOf : String → List PBIReportPage
  capacities : List String
  templateBytes : String

/-- State-plus-exception computations over `World`. -/
def PBM (α : Type) : Type := World → Except PBErr α × World

namespace PBM

/-- Return a value, state untouched. -/
def pure {α : Type} (a : α) : PBM α := fun w => (Except.ok a, w)

/-- Sequence two computations; an error short-circuits but keeps the state
reached so far. -/
def bind {α β : Type} (x : PBM α) (f : α → PBM β) : PBM β := fun w =>
  match x w with
  | (Except.ok a, w1) => f a w1
  | (Except.error e, w1) => (Except.error e, w1)

/-- Throw a `PowerBiError`/runtime error. -/
def throw {α : Type} (e : PBErr) : PBM α := fun w => (Except.error e, w)

/-- Run a computation and reify its outcome, as a `try` block does: the
continuation — catch handler included — starts from whatever state the body
left behind. -/
def attempt {α : Type} (x : PBM α) : PBM (Except PBErr α) := fun w =>
  match x w with
  | (Except.ok a, w1) => (Except.ok (Except.ok a), w1)
  | (Except.error e, w1) => (Except.ok (Except.error e), w1)

/-- Record one issued HTTP call. -/
def callRemote (callName : String) : PBM Unit := fun w =>
  (Except.ok (), { w with trace := w.trace ++ [callName] })

/-- A `setTimeout` suspension of `ms` milliseconds. -/
def sleep (ms : Nat) : PBM Unit := fun w =>
  (Except.ok (), { w with sleptMs := w.sleptMs + ms })

/-- Read of a property of a possibly-`undefined` JavaScript value: absent
raises `TypeError`. -/
def jsGet {α : Type} : Option α → PBM α
  | some a => pure a
  | none => throw PBErr.typeErr

end PBM

instance : Monad PBM where
  pure := PBM.pure
  bind := PBM.bind

namespace PowerBiService

/-- `createGroup`: validates the name, issues the POST; the service adds a
workspace with the id it chose and returns it. -/
def createGroup (env : Env) (name : String) : PBM PBIGroup :=
  if name ≠ "" then fun w =>
    let newGroup : PBIGroup := { id := env.createdGroupId, name := name }
    (Except.ok newGroup,
      { w with groups := w.groups ++ [newGroup],
               trace := w.trace ++ ["POST /groups"] })
  else PBM.throw (PBErr.missingRequiredParam "name")

/-- `listGroups`: returns the workspaces existing on the service. -/
def listGroups (_env : Env) : PBM (List PBIGroup) := fun w =>
  (Except.ok w.groups, { w with trace := w.trace ++ ["GET /groups"] })

/-- `getGroup`: `groups.find((group) => group.id === groupId)` — silently
`undefined` when no workspace matches. -/
def getGroup (env : Env) (groupId : String) : PBM (Option PBIGroup) :=
  if groupId ≠ "" then do
    let groups ← listGroups env
    PBM.pure (groups.find? (fun group => group.id == groupId))
  else PBM.throw (PBErr.missingRequiredParam "group ID")

/-- `deleteGroup`: issues the DELETE; the workspace with that id no longer
exists on the service afterwards. -/
def deleteGroup (_env : Env) (groupId : String) : PBM Unit :=
  if groupId ≠ "" then fun w =>
    (Except.ok (),
      { w with groups := w.groups.filter (fun group => group.id != groupId),
               trace := w.trace ++ ["DELETE /groups/:groupId"] })
  else PBM.throw (PBErr.missingRequiredParam "group ID")

/-- `getGroupUsers`; its unguarded envelope unwrap is analyzed separately
under C7 (`getGroupUsersValue`) — here the environment supplies the value
array directly. -/
def getGroupUsers (env : Env) (groupId : String) : PBM (List PBIGroupUser) :=
  if groupId ≠ "" then do
    PBM.callRemote "GET /groups/:groupId/users"
    PBM.pure (env.usersOf groupId)
  else PBM.throw (PBErr.missingRequiredParam "group ID")

/-- `addGroupUser`. -/
def addGroupUser (_env : Env) (groupId : String) (_user : PBIGroupUser) : PBM Unit :=
  if groupId ≠ "" then PBM.callRemote "POST /groups/:groupId/users"
  else PBM.throw (PBErr.missingRequiredParam "group ID")

/-- The for-of loop of `copyUsersFromGroup`; the `Set` of already-added
identifiers is modelled as a duplicate-free list with a containment check. -/
def addUsersLoop (env : Env) (targetGroupId : String) :
    List PBIGroupUser → List String → PBM (List String)
  | [], added => PBM.pure added
  | user :: users, added =>
      if added.contains user.identifier then
        addUsersLoop env targetGroupId users added
      else do
        addGroupUser env targetGroupId user
        addUsersLoop env targetGroupId users (added ++ [user.identifier])

/-- `copyUsersFromGroup`: snapshot the target's members once, then add every
source member not present in the snapshot. -/
def copyUsersFromGroup (env : Env) (sourceGroupId targetGroupId : String) :
    PBM (List String) := do
  let users ← getGroupUsers env sourceGroupId
  let targetUsers ← getGroupUsers env targetGroupId
  addUsersLoop env targetGroupId users (targetUsers.map (fun user => user.identifier)).dedup

/-- `importInGroup`: uploads the package (form-data assembly abstracted). -/
def importInGroup (env : Env) (groupId : String) (_file _datasetName : String) :
    PBM PBIImport :=
  if groupId ≠ "" then do
    PBM.callRemote "POST /groups/:groupId/imports"
    PBM.pure env.importResp
  else PBM.throw (PBErr.missingRequiredParam "groupId")

/-- `getImportInGroup`: fetches the import status; a response whose
`importState` is `Failed` raises `ERROR_MESSAGES.FAILED_IMPORT`. -/
def getImportInGroup (env : Env) (groupId importId : String) : PBM PBIImport :=
  if groupId ≠ "" ∧ importId ≠ "" then fun w =>
    let response := env.importPoll w.importPollCount
    let w1 := { w with importPollCount := w.importPollCount + 1,
                       trace := w.trace ++ ["GET /groups/:groupId/imports/:importId"] }
    if response.importState = PBIImportState.Failed then
      (Except.error PBErr.failedImport, w1)
    else (Except.ok response, w1)
  else PBM.throw (PBErr.missingRequiredParam "groupId, importId")

/-- `getGroupDatasets`: returns the envelope's raw value (no default — see
C7), `none` modelling an absent value array. -/
def getGroupDatasets (env : Env) (groupId : String) : PBM (Option (List PBIDataset)) :=
  if groupId ≠ "" then do
    PBM.callRemote "GET /groups/:groupId/datasets"
    PBM.pure env.datasetsResp
  else PBM.throw (PBErr.missingRequiredParam "[groupId]")

/-- `datasetTakeOver` (the source validates only `groupId`). -/
def datasetTakeOver (_env : Env) (groupId _datasetId : String) : PBM Unit :=
  if groupId ≠ "" then
    PBM.callRemote "POST /groups/:groupId/datasets/:datasetId/Default.TakeOver"
  else PBM.throw (PBErr.missingRequiredParam "groupId")

/-- `datasetUpdateParameters`: an absent or empty parameter list is a no-op
before any request is built. -/
def datasetUpdateParameters (_env : Env) (groupId _datasetId : String)
    (params : List PBIDatasourceParam) : PBM Unit :=
  if groupId ≠ "" then
    if params.isEmpty then PBM.pure ()
    else PBM.callRemote "POST /groups/:groupId/datasets/:datasetId/Default.UpdateParameters"
  else PBM.throw (PBErr.missingRequiredParam "groupId")

/-- `listDatasourcesInGroup` (this one defaults an absent value to an empty
array). -/
def listDatasourcesInGroup (env : Env) (groupId datasetId : String) :
    PBM (List PBIDatasource) :=
  if groupId ≠ "" ∧ datasetId ≠ "" then do
    PBM.callRemote "GET /groups/:groupId/datasets/:datasetId/datasources"
    PBM.pure env.datasourcesResp
  else PBM.throw (PBErr.missingRequiredParam "groupId (WsId) or datasetId")

/-- `gatewayDatasourceUpdate`. -/
def gatewayDatasourceUpdate (_env : Env) (gatewayId datasourceId : String)
    (_dataToUpd : PBICredentialDetails) : PBM Unit :=
  if gatewayId ≠ "" ∧ datasourceId ≠ "" then
    PBM.callRemote "PATCH /gateways/:gatewayId/datasources/:datasourceId"
  else PBM.throw (PBErr.missingRequiredParam "[gatewayId, datasourceId]")

/-- `datasetRefresh`: triggers one refresh. -/
def datasetRefresh (_env : Env) (groupId datasetId : String) : PBM Unit :=
  if groupId ≠ "" ∧ datasetId ≠ "" then
    PBM.callRemote "POST /groups/:groupId/datasets/:datasetId/refreshes"
  else PBM.throw (PBErr.missingRequiredParam "[groupId, datasetId]")

/-- `getDatasetRefreshes`: reads the next element of the refresh-poll
stream (its guarded envelope unwrap is `getDatasetRefreshesValue`, C7). -/
def getDatasetRefreshes (env : Env) (groupId datasetId : String) :
    PBM (List PBIRefresh) :=
  if groupId ≠ "" ∧ datasetId ≠ "" then fun w =>
    (Except.ok (env.refreshPoll w.refreshPollCount),
      { w with refreshPollCount := w.refreshPollCount + 1,
               trace := w.trace ++ ["GET /groups/:groupId/datasets/:datasetId/refreshes"] })
  else PBM.throw (PBErr.missingRequiredParam "[groupId, datasetId]")

/-- `datasetCreateRefreshSchedule`. -/
def datasetCreateRefreshSchedule (_env : Env) (groupId datasetId : String)
    (_times : List String) (_days : Option (List String)) : PBM Unit :=
  if groupId ≠ "" ∧ datasetId ≠ "" then
    PBM.callRemote "PATCH /groups/:groupId/datasets/:datasetId/refreshSchedule"
  else PBM.throw (PBErr.missingRequiredParam "[groupId, datasetId]")

/-- `listReportsInGroup` (guarded unwrap, see C7). -/
def listReportsInGroup (env : Env) (groupId : String) : PBM (List PBIReport) :=
  if groupId ≠ "" then do
    PBM.callRemote "GET /groups/:groupId/reports"
    PBM.pure env.reportsResp
  else PBM.throw (PBErr.missingRequiredParam "groupId (WsId)")

/-- `listReportsInGroupForDataset`: filter by `datasetId`. -/
def listReportsInGroupForDataset (env : Env) (groupId datasetId : String) :
    PBM (List PBIReport) := do
  let reports ← listReportsInGroup env groupId
  PBM.pure (reports.filter (fun report => report.datasetId == datasetId))

/-- `listReportPagesInGroup` (guarded unwrap, see C7). -/
def listReportPagesInGroup (env : Env) (groupId reportId : String) :
    PBM (List PBIReportPage) :=
  if groupId ≠ "" ∧ reportId ≠ "" then do
    PBM.callRemote "GET /groups/:groupId/reports/:reportId/pages"
    PBM.pure (env.pagesOf reportId)
  else PBM.throw (PBErr.missingRequiredParam "groupId (WsId) or reportId")

/-- Static `reportPageConvertor`. -/
def reportPageConvertor (page : PBIReportPage) : ReportPageType :=
  { name := page.name, displayName := page.displayName, order := page.order }

/-- `reportConvertor`: attach the report's pages. -/
def reportConvertor (env : Env) (groupId : String) (report : PBIReport) :
    PBM PBIClientInitReportType := do
  let pages ← listReportPagesInGroup env groupId report.id
  PBM.pure { id := report.id, name := report.name, embedUrl := report.embedUrl,
             webUrl := report.webUrl, pages := pages.map reportPageConvertor }

/-- `getCapacities` (capacity records abbreviated to their ids, the only
field the validation reads). -/
def getCapacities (env : Env) : PBM (List String) := do
  PBM.callRemote "GET /capacities"
  PBM.pure env.capacities

/-- `validateCapacityId`: unknown capacity raises
`ERROR_MESSAGES.UNKNOWN_RESOURCE`. -/
def validateCapacityId (env : Env) (_groupId capacityId : String) : PBM Unit := do
  let capacities ← getCapacities env
  if capacities.contains capacityId then PBM.pure ()
  else PBM.throw (PBErr.unknownResource "Capacity" capacityId)

/-- `assignCapacityToGroup`. -/
def assignCapacityToGroup (env : Env) (groupId capacityId : String) : PBM String :=
  if groupId ≠ "" ∧ capacityId ≠ "" then do
    validateCapacityId env groupId capacityId
    PBM.callRemote "POST /groups/:groupId/AssignToCapacity"
    PBM.pure capacityId
  else PBM.throw (PBErr.missingRequiredParam "group ID or capacityId")

/-- The import-status do-while of `importPbixToWorkspace`:

    do { sleep(2000); importData = getImportInGroup(id, importData.id) }
    while (importData.importState === Publishing)

Unbounded in the source; `fuel` bounds the model and `outOfFuel` stands for
a poll stream that never leaves Publishing. -/
def importPublishLoop (env : Env) (groupId : String) :
    Nat → PBIImport → PBM PBIImport
  | 0, _ => PBM.throw PBErr.outOfFuel
  | fuel + 1, importData => do
      PBM.sleep 2000
      let next ← getImportInGroup env groupId importData.id
      if next.importState = PBIImportState.Publishing then
        importPublishLoop env groupId fuel next
      else PBM.pure next

/-- The refresh-status do-while of `importPbixToWorkspace`:

    let counter = 0; let refreshed;
    do { counter++; sleep(10000);
         refreshed = allRefreshesInFinalState(getDatasetRefreshes(...)) }
    while (counter < 72 && !refreshed);

Encoded by structural recursion on `left`, the number of iterations the
72-iteration budget still allows before the running one: an iteration
entered with budget `left + 1` has post-increment counter `72 - left`, so
the source's continue condition `counter < 72` is `1 ≤ left` here. The loop
is entered with the full budget 72. -/
def refreshPollLoopGo (env : Env) (groupId datasetId : String) : Nat → PBM Bool
  | 0 => PBM.pure false
  | left + 1 => do
      PBM.sleep 10000
      let refreshes ← getDatasetRefreshes env groupId datasetId
      let refreshed := allRefreshesInFinalState (some refreshes)
      if 1 ≤ left ∧ refreshed = false then
        refreshPollLoopGo env groupId datasetId left
      else PBM.pure refreshed

/-- The refresh poll loop with its full 72-iteration budget. -/
def refreshPollLoop (env : Env) (groupId datasetId : String) : PBM Bool :=
  refreshPollLoopGo env groupId datasetId 72

/-- `importPbixToWorkspace`: the reusable provisioning core. The fail-fast
configuration check and the `getGroup` lookup run before the try block;
everything else runs inside it and any exception is re-raised as the opaque
`UNEXPECTED_CREATION_ERROR`. -/
def importPbixToWorkspace (env : Env) (fuel : Nat) (groupId : String)
    (config : PowerBiConfigDto) : PBM PBIClientInitResultType :=
  if groupId ≠ "" ∧ config.datasourceCredentials.isSome then do
    let pbiGroupOpt ← getGroup env groupId
    let attempted ← PBM.attempt (do
      let pbiGroup ← PBM.jsGet pbiGroupOpt
      let _addedUsers ← copyUsersFromGroup env config.templateGroupId pbiGroup.id
      let data := env.templateBytes
      let datasetName := config.name
      let importData ← importInGroup env pbiGroup.id data datasetName
      let _importFinal ← importPublishLoop env pbiGroup.id fuel importData
      let datasetsOpt ← getGroupDatasets env pbiGroup.id
      let datasets ← PBM.jsGet datasetsOpt
      let dataset ← PBM.jsGet (datasets.find? (fun dataset => dataset.name == datasetName))
      let datasetId := dataset.id
      datasetTakeOver env pbiGroup.id datasetId
      datasetUpdateParameters env pbiGroup.id datasetId config.datasourceParams
      let datasources ← listDatasourcesInGroup env pbiGroup.id datasetId
      let datasource ← PBM.jsGet datasources.head?
      let credentials ← PBM.jsGet config.datasourceCredentials
      gatewayDatasourceUpdate env datasource.gatewayId datasource.datasourceId credentials
      datasetRefresh env pbiGroup.id datasetId
      let refreshed ← refreshPollLoop env pbiGroup.id datasetId
      let _ ← (match config.scheduledTimes with
        | some times =>
            datasetCreateRefreshSchedule env pbiGroup.id datasetId times config.scheduledDays
        | none => PBM.pure ())
      let reports ← listReportsInGroupForDataset env pbiGroup.id datasetId
      let reportResults ← reports.mapM (fun report => reportConvertor env pbiGroup.id report)
      PBM.pure { workspaceId := pbiGroup.id, dataRefreshed := refreshed,
                 name := pbiGroup.name, datasetId := datasetId,
                 datasourceId := datasource.datasourceId, reports := reportResults })
    match attempted with
    | Except.ok result => PBM.pure result
    | Except.error _ => PBM.throw PBErr.unexpectedCreationError
  else PBM.throw PBErr.missingInitConfiguration

/-- `initClientProject`: create the workspace (name led by the process-wide
`GROUP_PREFIX` value, passed here as `groupNameLead`), run the import, and
on any exception delete the just-created workspace — if it was assigned —
before raising the opaque creation error. -/
def initClientProject (env : Env) (fuel : Nat) (groupNameLead : String)
    (config : PowerBiConfigDto) : PBM PBIClientInitResultType :=
  if config.name ≠ "" then do
    let created ← PBM.attempt (createGroup env (groupNameLead ++ config.name))
    match created with
    | Except.error _ =>
        PBM.throw PBErr.unexpectedCreationError
    | Except.ok newGroup => do
        let attempted ← PBM.attempt (do
          let result ← importPbixToWorkspace env fuel newGroup.id config
          let _ ← (if jsTruthyStr config.capacityId then do
              let _ ← assignCapacityToGroup env newGroup.id (config.capacityId.getD "")
              PBM.pure ()
            else PBM.pure ())
          PBM.pure result)
        match attempted with
        | Except.ok result => PBM.pure result
        | Except.error _ => do
            deleteGroup env newGroup.id
            PBM.throw PBErr.unexpectedCreationError
  else PBM.throw PBErr.missingInitConfiguration

end PowerBiService

/-! ## Concrete instantiation data shared by witnesses and counterexamples -/

/-- The empty starting world. -/
def emptyWorld : World :=
  { groups := [], importPollCount := 0, refreshPollCount := 0, sleptMs := 0, trace := [] }

/-- A concrete quiet service environment: no template users, an import that
publishes and then succeeds, one matching dataset, one datasource, all
refreshes final, no reports. -/
def baseEnv : Env :=
  { createdGroupId := "ws-new",
    usersOf := fun _ => [],
    importResp := { id := "imp-1", importState := PBIImportState.Publishing },
    importPoll := fun _ => { id := "imp-1", importState := PBIImportState.Succeeded },
    datasetsResp := some [{ id := "ds-1", name := "Sales" }],
    datasourcesResp := [{ gatewayId := "gw-1", datasourceId := "src-1" }],
    refreshPoll := fun _ => [{ startTime := "t0", endTime := "t1",
                               status := PBIRefreshStatusEnum.Completed }],
    reportsResp := [],
    pagesOf := fun _ => [],
    capacities := [],
    templateBytes := "pbix-bytes" }

/-- A concrete resolved configuration. -/
def baseConfig : PowerBiConfigDto :=
  { name := "Sales", capacityId := none,
    datasourceCredentials := some (createBasicCredentials []),
    datasourceParams := [], scheduledTimes := none, scheduledDays := none,
    pathToTemplateFile := "templates/sales.pbix", templateGroupId := "tg-1" }

/-! ## Stepping lemmas for PBM computations -/

/-- Run a bind whose first computation succeeds. -/
theorem PBM.bind_ok {α β : Type} {x : PBM α} {w w1 : World} {a : α} {f : α → PBM β}
    (h : x w = (Except.ok a, w1)) :
    (x >>= f) w = f a w1 := by
  show PBM.bind x f w = f a w1
  unfold PBM.bind
  rw [h]

/-- Run a bind whose first computation fails: the error and the state it
left behind propagate. -/
theorem PBM.bind_err {α β : Type} {x : PBM α} {w w1 : World} {e : PBErr} {f : α → PBM β}
    (h : x w = (Except.error e, w1)) :
    (x >>= f) w = (Except.error e, w1) := by
  show PBM.bind x f w = (Except.error e, w1)
  unfold PBM.bind
  rw [h]

/-- Run an `attempt` over a succeeding body. -/
theorem PBM.attempt_ok {α : Type} {x : PBM α} {w w1 : World} {a : α}
    (h : x w = (Except.ok a, w1)) :
    PBM.attempt x w = (Except.ok (Except.ok a), w1) := by
  unfold PBM.attempt
  rw [h]

/-- Run an `attempt` over a failing body: the catch continuation starts from
the state the body reached. -/
theorem PBM.attempt_err {α : Type} {x : PBM α} {w w1 : World} {e : PBErr}
    (h : x w = (Except.error e, w1)) :
    PBM.attempt x w = (Except.ok (Except.error e), w1) := by
  unfold PBM.attempt
  rw [h]

/-- Run of `pure`. -/
theorem PBM.pure_run {α : Type} (a : α) (w : World) :
    (PBM.pure a) w = (Except.ok a, w) := rfl

/-- Run of `throw`. -/
theorem PBM.throw_run {α : Type} (e : PBErr) (w : World) :
    (PBM.throw e : PBM α) w = (Except.error e, w) := rfl

/-- Run of `jsGet` on a present value. -/
theorem PBM.jsGet_some_run {α : Type} (a : α) (w : World) :
    (PBM.jsGet (some a)) w = (Except.ok a, w) := rfl

/-- Run of `jsGet` on `undefined`: the TypeError. -/
theorem PBM.jsGet_none_run {α : Type} (w : World) :
    (PBM.jsGet (α := α) none) w = (Except.error PBErr.typeErr, w) := rfl

instance : LawfulMonad PBM := by
  refine LawfulMonad.mk' PBM ?_ ?_ ?_
  · intro α x
    funext w
    show PBM.bind x (fun a => PBM.pure (id a)) w = x w
    unfold PBM.bind
    cases h : x w with
    | mk r w1 => cases r <;> rfl
  · intro α β a f
    funext w
    show PBM.bind (PBM.pure a) f w = f a w
    rfl
  · intro α β γ x f g
    funext w
    show PBM.bind (PBM.bind x f) g w = PBM.bind x (fun a => PBM.bind (f a) g) w
    unfold PBM.bind
    cases h : x w with
    | mk r w1 => cases r <;> rfl

namespace PowerBiService

/-- Run of `createGroup` on a non-empty name. -/
theorem createGroup_run (env : Env) {name : String} (h : name ≠ "") (w : World) :
    createGroup env name w =
      (Except.ok { id := env.createdGroupId, name := name },
        { w with groups := w.groups ++ [{ id := env.createdGroupId, name := name }],
                 trace := w.trace ++ ["POST /groups"] }) := by
  unfold createGroup
  rw [if_pos h]

/-- Run of `listGroups`. -/
theorem listGroups_run (env : Env) (w : World) :
    listGroups env w =
      (Except.ok w.groups, { w with trace := w.trace ++ ["GET /groups"] }) := rfl

/-- Run of `getGroup` on a non-empty id. -/
theorem getGroup_run (env : Env) {groupId : String} (h : groupId ≠ "") (w : World) :
    getGroup env groupId w =
      (Except.ok (w.groups.find? (fun group => group.id == groupId)),
        { w with trace := w.trace ++ ["GET /groups"] }) := by
  unfold getGroup
  rw [if_pos h]
  rfl

/-- Run of `deleteGroup` on a non-empty id. -/
theorem deleteGroup_run (env : Env) {groupId : String} (h : groupId ≠ "") (w : World) :
    deleteGroup env groupId w =
      (Except.ok (),
        { w with groups := w.groups.filter (fun group => group.id != groupId),
                 trace := w.trace ++ ["DELETE /groups/:groupId"] }) := by
  unfold deleteGroup
  rw [if_pos h]

/-- Run of `getGroupUsers` on a non-empty id. -/
theorem getGroupUsers_run (env : Env) {groupId : String} (h : groupId ≠ "") (w : World) :
    getGroupUsers env groupId w =
      (Except.ok (env.usersOf groupId),
        { w with trace := w.trace ++ ["GET /groups/:groupId/users"] }) := by
  unfold getGroupUsers
  rw [if_pos h]
  rfl

/-- Run of `addGroupUser` on a non-empty id. -/
theorem addGroupUser_run (env : Env) {groupId : String} (h : groupId ≠ "")
    (user : PBIGroupUser) (w : World) :
    addGroupUser env groupId user w =
      (Except.ok (), { w with trace := w.trace ++ ["POST /groups/:groupId/users"] }) := by
  unfold addGroupUser
  rw [if_pos h]
  rfl

/-- Run of `importInGroup` on a non-empty id. -/
theorem importInGroup_run (env : Env) {groupId : String} (h : groupId ≠ "")
    (file datasetName : String) (w : World) :
    importInGroup env groupId file datasetName w =
      (Except.ok env.importResp,
        { w with trace := w.trace ++ ["POST /groups/:groupId/imports"] }) := by
  unfold importInGroup
  rw [if_pos h]
  rfl

/-- Run of `getImportInGroup` when the polled import failed. -/
theorem getImportInGroup_run_failed (env : Env) {groupId importId : String}
    (h : groupId ≠ "" ∧ importId ≠ "") (w : World)
    (hf : (env.importPoll w.importPollCount).importState = PBIImportState.Failed) :
    getImportInGroup env groupId importId w =
      (Except.error PBErr.failedImport,
        { w with importPollCount := w.importPollCount + 1,
                 trace := w.trace ++ ["GET /groups/:groupId/imports/:importId"] }) := by
  unfold getImportInGroup
  rw [if_pos h]
  simp only [hf, if_pos]

/-- Run of `getImportInGroup` when the polled import has not failed. -/
theorem getImportInGroup_run_ok (env : Env) {groupId importId : String}
    (h : groupId ≠ "" ∧ importId ≠ "") (w : World)
    (hok : (env.importPoll w.importPollCount).importState ≠ PBIImportState.Failed) :
    getImportInGroup env groupId importId w =
      (Except.ok (env.importPoll w.importPollCount),
        { w with importPollCount := w.importPollCount + 1,
                 trace := w.trace ++ ["GET /groups/:groupId/imports/:importId"] }) := by
  unfold getImportInGroup
  rw [if_pos h]
  simp only [hok, if_neg]
  simp

/-- Run of `getGroupDatasets` on a non-empty id. -/
theorem getGroupDatasets_run (env : Env) {groupId : String} (h : groupId ≠ "") (w : World) :
    getGroupDatasets env groupId w =
      (Except.ok env.datasetsResp,
        { w with trace := w.trace ++ ["GET /groups/:groupId/datasets"] }) := by
  unfold getGroupDatasets
  rw [if_pos h]
  rfl

/-- Run of `datasetTakeOver` on a non-empty group id. -/
theorem datasetTakeOver_run (env : Env) {groupId : String} (h : groupId ≠ "")
    (datasetId : String) (w : World) :
    datasetTakeOver env groupId datasetId w =
      (Except.ok (),
        { w with trace :=
            w.trace ++ ["POST /groups/:groupId/datasets/:datasetId/Default.TakeOver"] }) := by
  unfold datasetTakeOver
  rw [if_pos h]
  rfl

/-- Run of `datasetUpdateParameters` on an empty parameter list: a pure
no-op. -/
theorem datasetUpdateParameters_run_nil (env : Env) {groupId : String} (h : groupId ≠ "")
    (datasetId : String) (w : World) :
    datasetUpdateParameters env groupId datasetId [] w = (Except.ok (), w) := by
  unfold datasetUpdateParameters
  rw [if_pos h]
  rfl

/-- Run of `datasetUpdateParameters` on a non-empty parameter list. -/
theorem datasetUpdateParameters_run_cons (env : Env) {groupId : String} (h : groupId ≠ "")
    (datasetId : String) (p : PBIDatasourceParam) (ps : List PBIDatasourceParam) (w : World) :
    datasetUpdateParameters env groupId datasetId (p :: ps) w =
      (Except.ok (),
        { w with trace := w.trace ++
            ["POST /groups/:groupId/datasets/:datasetId/Default.UpdateParameters"] }) := by
  unfold datasetUpdateParameters
  rw [if_pos h]
  rfl

/-- Run of `listDatasourcesInGroup` with both ids non-empty. -/
theorem listDatasourcesInGroup_run (env : Env) {groupId datasetId : String}
    (h : groupId ≠ "" ∧ datasetId ≠ "") (w : World) :
    listDatasourcesInGroup env groupId datasetId w =
      (Except.ok env.datasourcesResp,
        { w with trace :=
            w.trace ++ ["GET /groups/:groupId/datasets/:datasetId/datasources"] }) := by
  unfold listDatasourcesInGroup
  rw [if_pos h]
  rfl

/-- Run of `gatewayDatasourceUpdate` with both ids non-empty. -/
theorem gatewayDatasourceUpdate_run (env : Env) {gatewayId datasourceId : String}
    (h : gatewayId ≠ "" ∧ datasourceId ≠ "") (dataToUpd : PBICredentialDetails) (w : World) :
    gatewayDatasourceUpdate env gatewayId datasourceId dataToUpd w =
      (Except.ok (),
        { w with trace :=
            w.trace ++ ["PATCH /gateways/:gatewayId/datasources/:datasourceId"] }) := by
  unfold gatewayDatasourceUpdate
  rw [if_pos h]
  rfl

/-- Run of `datasetRefresh` with both ids non-empty. -/
theorem datasetRefresh_run (env : Env) {groupId datasetId : String}
    (h : groupId ≠ "" ∧ datasetId ≠ "") (w : World) :
    datasetRefresh env groupId datasetId w =
      (Except.ok (),
        { w with trace :=
            w.trace ++ ["POST /groups/:groupId/datasets/:datasetId/refreshes"] }) := by
  unfold datasetRefresh
  rw [if_pos h]
  rfl

/-- Run of `getDatasetRefreshes` with both ids non-empty: reads the next
element of the poll stream. -/
theorem getDatasetRefreshes_run (env : Env) {groupId datasetId : String}
    (h : groupId ≠ "" ∧ datasetId ≠ "") (w : World) :
    getDatasetRefreshes env groupId datasetId w =
      (Except.ok (env.refreshPoll w.refreshPollCount),
        { w with refreshPollCount := w.refreshPollCount + 1,
                 trace :=
                   w.trace ++ ["GET /groups/:groupId/datasets/:datasetId/refreshes"] }) := by
  unfold getDatasetRefreshes
  rw [if_pos h]

/-- Run of `datasetCreateRefreshSchedule` with both ids non-empty. -/
theorem datasetCreateRefreshSchedule_run (env : Env) {groupId datasetId : String}
    (h : groupId ≠ "" ∧ datasetId ≠ "") (times : List String)
    (days : Option (List String)) (w : World) :
    datasetCreateRefreshSchedule env groupId datasetId times days w =
      (Except.ok (),
        { w with trace :=
            w.trace ++ ["PATCH /groups/:groupId/datasets/:datasetId/refreshSchedule"] }) := by
  unfold datasetCreateRefreshSchedule
  rw [if_pos h]
  rfl

/-- Run of `listReportsInGroup` on a non-empty id. -/
theorem listReportsInGroup_run (env : Env) {groupId : String} (h : groupId ≠ "") (w : World) :
    listReportsInGroup env groupId w =
      (Except.ok env.reportsResp,
        { w with trace := w.trace ++ ["GET /groups/:groupId/reports"] }) := by
  unfold listReportsInGroup
  rw [if_pos h]
  rfl

/-- Run of `listReportsInGroupForDataset` on a non-empty group id. -/
theorem listReportsInGroupForDataset_run (env : Env) {groupId : String} (h : groupId ≠ "")
    (datasetId : String) (w : World) :
    listReportsInGroupForDataset env groupId datasetId w =
      (Except.ok (env.reportsResp.filter (fun report => report.datasetId == datasetId)),
        { w with trace := w.trace ++ ["GET /groups/:groupId/reports"] }) := by
  unfold listReportsInGroupForDataset
  rw [PBM.bind_ok (listReportsInGroup_run env h w)]
  rfl

/-- Run of `listReportPagesInGroup` with both ids non-empty. -/
theorem listReportPagesInGroup_run (env : Env) {groupId reportId : String}
    (h : groupId ≠ "" ∧ reportId ≠ "") (w : World) :
    listReportPagesInGroup env groupId reportId w =
      (Except.ok (env.pagesOf reportId),
        { w with trace := w.trace ++ ["GET /groups/:groupId/reports/:reportId/pages"] }) := by
  unfold listReportPagesInGroup
  rw [if_pos h]
  rfl

/-- Run of `reportConvertor` on a report with a non-empty id. -/
theorem reportConvertor_run (env : Env) {groupId : String} (hg : groupId ≠ "")
    {report : PBIReport} (hr : report.id ≠ "") (w : World) :
    reportConvertor env groupId report w =
      (Except.ok { id := report.id, name := report.name, embedUrl := report.embedUrl,
                   webUrl := report.webUrl,
                   pages := (env.pagesOf report.id).map reportPageConvertor },
        { w with trace := w.trace ++ ["GET /groups/:groupId/reports/:reportId/pages"] }) := by
  unfold reportConvertor
  rw [PBM.bind_ok (listReportPagesInGroup_run env ⟨hg, hr⟩ w)]
  rfl

end PowerBiService

/-- Outcome discriminator: did the computation raise the domain error
`UNKNOWN_RESOURCE`? -/
def errIsUnknownResource {α : Type} : Except PBErr α → Bool
  | Except.error (PBErr.unknownResource _ _) => true
  | _ => false

/-- C5. `importPbixToWorkspace` fails fast: an absent/empty workspace id, or
unresolved datasource credentials, raise the configuration error
`MISSING_INIT_CONFIGURATION` with the world — workspaces, poll counters,
suspension time and the trace of issued HTTP calls — left exactly as it
was: no remote call is issued and there is no remote side effect. -/
theorem C5_importPbixToWorkspace_fail_fast
    (env : Env) (fuel : Nat) (groupId : String) (config : PowerBiConfigDto) (w : World)
    (h : groupId = "" ∨ config.datasourceCredentials = none) :
    PowerBiService.importPbixToWorkspace env fuel groupId config w =
      (Except.error PBErr.missingInitConfiguration, w) := by
  have hcond : ¬(groupId ≠ "" ∧ config.datasourceCredentials.isSome = true) := by
    rcases h with h | h <;> simp [h]
  unfold PowerBiService.importPbixToWorkspace
  rw [if_neg hcond]
  rfl

/-- C5, witness: at a concrete empty workspace id the call returns the
configuration error and the world is untouched. -/
theorem C5_importPbixToWorkspace_fail_fast_witness :
    PowerBiService.importPbixToWorkspace baseEnv 5 "" baseConfig emptyWorld =
      (Except.error PBErr.missingInitConfiguration, emptyWorld) :=
  C5_importPbixToWorkspace_fail_fast baseEnv 5 "" baseConfig emptyWorld (Or.inl rfl)

/-- C6, counterexample: with no workspace of id g-404 on the service,
`importToWorkspace` fails with the catch-all `UNEXPECTED_CREATION_ERROR`
(`getGroup` silently returned `undefined` and the first property access on
it threw inside the try block) — not with an unknown-resource error. -/
theorem C6_counterexample_missing_workspace_error_identity :
    (PowerBiService.importPbixToWorkspace baseEnv 5 "g-404" baseConfig emptyWorld).1 =
      Except.error PBErr.unexpectedCreationError
    ∧ errIsUnknownResource
        (PowerBiService.importPbixToWorkspace baseEnv 5 "g-404" baseConfig emptyWorld).1 =
      false := ⟨rfl, rfl⟩

/-- C6, amended: when no workspace with the requested id exists, the
operation does fail, but with the generic `UNEXPECTED_CREATION_ERROR`: the
lookup returns `undefined`, the property access on it raises a TypeError
inside the try block, and the catch-all rewraps it. Exactly one remote call
(the workspace listing) was issued. -/
theorem C6_amended_missing_workspace_generic_error
    (env : Env) (fuel : Nat) (groupId : String) (config : PowerBiConfigDto) (w : World)
    (hg : groupId ≠ "") (hc : config.datasourceCredentials.isSome = true)
    (hfind : w.groups.find? (fun group => group.id == groupId) = none) :
    PowerBiService.importPbixToWorkspace env fuel groupId config w =
      (Except.error PBErr.unexpectedCreationError,
        { w with trace := w.trace ++ ["GET /groups"] }) := by
  unfold PowerBiService.importPbixToWorkspace
  rw [if_pos ⟨hg, hc⟩]
  rw [PBM.bind_ok (PowerBiService.getGroup_run env hg w)]
  rw [hfind]
  rw [PBM.bind_ok (PBM.attempt_err (PBM.bind_err (PBM.jsGet_none_run _)))]
  rfl

/-- C6, witness for the amended theorem at a concrete input. -/
theorem C6_amended_missing_workspace_generic_error_witness :
    PowerBiService.importPbixToWorkspace baseEnv 5 "g-404" baseConfig emptyWorld =
      (Except.error PBErr.unexpectedCreationError,
        { emptyWorld with trace := emptyWorld.trace ++ ["GET /groups"] }) :=
  C6_amended_missing_workspace_generic_error baseEnv 5 "g-404" baseConfig emptyWorld
    (by decide) (by decide) rfl

/-- Run of `sleep`. -/
theorem PBM.sleep_run (ms : Nat) (w : World) :
    PBM.sleep ms w = (Except.ok (), { w with sleptMs := w.sleptMs + ms }) := rfl

/-- Appending to a non-empty string stays non-empty. -/
theorem append_ne_empty_of_right {s t : String} (h : t ≠ "") : s ++ t ≠ "" := by
  intro hc
  apply h
  have hl := congrArg String.length hc
  rw [String.length_append] at hl
  simp only [String.length_empty] at hl
  have h2 : t.length = 0 := by omega
  have h3 : t.data.length = 0 := h2
  have h4 : t.data = [] := List.length_eq_zero.mp h3
  cases t
  simp_all

namespace PowerBiService

/-- The user-copy loop only appends to the call trace and succeeds, whatever
the user list and the already-present snapshot. -/
theorem addUsersLoop_run (env : Env) {targetGroupId : String} (ht : targetGroupId ≠ "") :
    ∀ (users : List PBIGroupUser) (added : List String) (w : World),
      ∃ added2 tr, addUsersLoop env targetGroupId users added w =
        (Except.ok added2, { w with trace := w.trace ++ tr }) := by
  intro users
  induction users with
  | nil =>
      intro added w
      refine ⟨added, [], ?_⟩
      simp [addUsersLoop, PBM.pure]
  | cons user rest ih =>
      intro added w
      by_cases hmem : added.contains user.identifier = true
      · obtain ⟨a2, tr, h⟩ := ih added w
        refine ⟨a2, tr, ?_⟩
        simp only [addUsersLoop]
        rw [if_pos hmem]
        exact h
      · obtain ⟨a2, tr, h⟩ := ih (added ++ [user.identifier])
          { w with trace := w.trace ++ ["POST /groups/:groupId/users"] }
        refine ⟨a2, "POST /groups/:groupId/users" :: tr, ?_⟩
        simp only [addUsersLoop]
        rw [if_neg hmem]
        rw [PBM.bind_ok (addGroupUser_run env ht user w)]
        rw [h]
        simp

/-- `copyUsersFromGroup` succeeds on non-empty ids and only appends to the
call trace. -/
theorem copyUsersFromGroup_run (env : Env) {src tgt : String} (hs : src ≠ "")
    (ht : tgt ≠ "") (w : World) :
    ∃ added2 tr, copyUsersFromGroup env src tgt w =
      (Except.ok added2, { w with trace := w.trace ++ tr }) := by
  obtain ⟨a2, tr, h⟩ := addUsersLoop_run env ht (env.usersOf src)
      ((env.usersOf tgt).map (fun user => user.identifier)).dedup
      { w with trace := w.trace ++ ["GET /groups/:groupId/users", "GET /groups/:groupId/users"] }
  refine ⟨a2, "GET /groups/:groupId/users" :: "GET /groups/:groupId/users" :: tr, ?_⟩
  unfold copyUsersFromGroup
  rw [PBM.bind_ok (getGroupUsers_run env hs w)]
  rw [PBM.bind_ok (getGroupUsers_run env ht _)]
  dsimp only
  rw [show ({ w with trace := w.trace ++ ["GET /groups/:groupId/users"] ++ ["GET /groups/:groupId/users"] } : World)
        = { w with trace := w.trace ++ ["GET /groups/:groupId/users", "GET /groups/:groupId/users"] } by simp]
  rw [h]
  simp

end PowerBiService

/-- Push a world application inside `attempt`. -/
theorem PBM.attempt_apply {α : Type} (x : PBM α) (w : World) :
    PBM.attempt x w = (Except.ok (x w).1, (x w).2) := by
  unfold PBM.attempt
  cases h : x w with
  | mk r w1 => cases r <;> simp

/-- C2, amended: if the import-status poll reports `Failed` after the new
workspace was created, `initializeFromTemplate` raises the opaque
`UNEXPECTED_CREATION_ERROR` — the domain-level failed-import error is raised
internally by `getImportInGroup` but wrapped twice on the way out — and the
workspace created at the start of the call no longer exists afterwards: the
compensating delete ran before re-raising. -/
theorem C2_amended_failed_import_compensating_delete
    (env : Env) (fuel : Nat) (lead : String) (config : PowerBiConfigDto) (w : World)
    (hname : config.name ≠ "")
    (hid : env.createdGroupId ≠ "")
    (htg : config.templateGroupId ≠ "")
    (hcred : config.datasourceCredentials.isSome = true)
    (himpid : env.importResp.id ≠ "")
    (hfuel : 1 ≤ fuel)
    (hfresh : w.groups.find? (fun group => group.id == env.createdGroupId) = none)
    (hfail : (env.importPoll w.importPollCount).importState = PBIImportState.Failed) :
    ∃ wf, PowerBiService.initClientProject env fuel lead config w =
        (Except.error PBErr.unexpectedCreationError, wf)
      ∧ wf.groups = w.groups
      ∧ wf.groups.find? (fun group => group.id == env.createdGroupId) = none
      ∧ "DELETE /groups/:groupId" ∈ wf.trace := by
  have hlead : lead ++ config.name ≠ "" := append_ne_empty_of_right hname
  obtain ⟨f, rfl⟩ : ∃ f, fuel = f + 1 := ⟨fuel - 1, by omega⟩
  have himp : ∀ v : World,
      v.groups = w.groups ++ [{ id := env.createdGroupId, name := lead ++ config.name }] →
      v.importPollCount = w.importPollCount →
      ∃ tr, PowerBiService.importPbixToWorkspace env (f + 1) env.createdGroupId config v =
        (Except.error PBErr.unexpectedCreationError,
          { v with importPollCount := v.importPollCount + 1,
                   sleptMs := v.sleptMs + 2000,
                   trace := v.trace ++ tr }) := by
    intro v hvg hvc
    obtain ⟨a2, tr2, hcopy⟩ := PowerBiService.copyUsersFromGroup_run env htg hid
      { v with trace := v.trace ++ ["GET /groups"] }
    dsimp only at hcopy
    have hfail5 : (env.importPoll v.importPollCount).importState = PBIImportState.Failed := by
      rw [hvc]; exact hfail
    have hloop : PowerBiService.importPublishLoop env env.createdGroupId (f + 1)
        env.importResp
        { v with sleptMs := v.sleptMs,
                 trace := ((v.trace ++ ["GET /groups"]) ++ tr2) ++ ["POST /groups/:groupId/imports"] } =
        (Except.error PBErr.failedImport,
          { v with importPollCount := v.importPollCount + 1,
                   sleptMs := v.sleptMs + 2000,
                   trace := (((v.trace ++ ["GET /groups"]) ++ tr2) ++ ["POST /groups/:groupId/imports"])
                     ++ ["GET /groups/:groupId/imports/:importId"] }) := by
      simp only [PowerBiService.importPublishLoop]
      rw [PBM.bind_ok (PBM.sleep_run 2000 _)]
      dsimp only
      rw [PBM.bind_err (PowerBiService.getImportInGroup_run_failed env ⟨hid, himpid⟩
        { v with sleptMs := v.sleptMs + 2000,
                 trace := ((v.trace ++ ["GET /groups"]) ++ tr2) ++ ["POST /groups/:groupId/imports"] }
        hfail5)]
    refine ⟨"GET /groups" :: (tr2 ++ ["POST /groups/:groupId/imports",
        "GET /groups/:groupId/imports/:importId"]), ?_⟩
    unfold PowerBiService.importPbixToWorkspace
    rw [if_pos ⟨hid, hcred⟩]
    have hfind2 : v.groups.find? (fun group => group.id == env.createdGroupId) =
        some ({ id := env.createdGroupId, name := lead ++ config.name } : PBIGroup) := by
      rw [hvg, List.find?_append, hfresh, Option.none_or]
      simp [List.find?]
    rw [PBM.bind_ok (PowerBiService.getGroup_run env hid v)]
    rw [hfind2]
    rw [PBM.bind_ok (PBM.attempt_apply _ _)]
    rw [PBM.bind_ok (PBM.jsGet_some_run _ _)]
    rw [PBM.bind_ok hcopy]
    rw [PBM.bind_ok (PowerBiService.importInGroup_run env hid _ _ _)]
    rw [PBM.bind_err hloop]
    simp [PBM.throw, List.append_assoc]
  obtain ⟨tr, himp1⟩ := himp
      ({ w with groups := w.groups ++ [({ id := env.createdGroupId, name := lead ++ config.name } : PBIGroup)],
                trace := w.trace ++ ["POST /groups"] } : World)
      rfl rfl
  dsimp only at himp1
  have hgroups : ((w.groups ++ [({ id := env.createdGroupId, name := lead ++ config.name } : PBIGroup)]).filter
      (fun group => group.id != env.createdGroupId)) = w.groups := by
    rw [List.filter_append]
    have h1 : w.groups.filter (fun group => group.id != env.createdGroupId) = w.groups := by
      rw [List.filter_eq_self]
      intro x hx
      have := List.find?_eq_none.mp hfresh x hx
      simpa [bne] using this
    rw [h1]
    simp
  have hrun : PowerBiService.initClientProject env (f + 1) lead config w =
      (Except.error PBErr.unexpectedCreationError,
        { groups := w.groups,
          importPollCount := w.importPollCount + 1,
          refreshPollCount := w.refreshPollCount,
          sleptMs := w.sleptMs + 2000,
          trace := ((w.trace ++ ["POST /groups"]) ++ tr) ++ ["DELETE /groups/:groupId"] }) := by
    unfold PowerBiService.initClientProject
    rw [if_pos hname]
    rw [PBM.bind_ok (PBM.attempt_apply _ _)]
    rw [PowerBiService.createGroup_run env hlead w]
    dsimp only
    rw [PBM.bind_ok (PBM.attempt_apply _ _)]
    rw [PBM.bind_err himp1]
    dsimp only
    rw [PBM.bind_ok (PowerBiService.deleteGroup_run env hid _)]
    dsimp only
    rw [hgroups]
    simp [PBM.throw, List.append_assoc]
  refine ⟨_, hrun, rfl, hfresh, ?_⟩
  simp

/-- Concrete environment whose import-status poll always reports `Failed`. -/
def c2FailEnv : Env :=
  { baseEnv with importPoll := fun _ =>
      ({ id := "imp-1", importState := PBIImportState.Failed } : PBIImport) }

/-- C2, counterexample: at a concrete input where the import poll reports
`Failed`, `initializeFromTemplate` does not raise the domain-level
failed-import error the claim expects: the caller observes the opaque
`UNEXPECTED_CREATION_ERROR` (the workspace is deleted, as the trace-carrying
world shows). -/
theorem C2_counterexample_error_is_wrapped :
    (PowerBiService.initClientProject c2FailEnv 1 "pfx-" baseConfig emptyWorld).1 =
      Except.error PBErr.unexpectedCreationError
    ∧ (PowerBiService.initClientProject c2FailEnv 1 "pfx-" baseConfig emptyWorld).1 ≠
      Except.error PBErr.failedImport
    ∧ (PowerBiService.initClientProject c2FailEnv 1 "pfx-" baseConfig emptyWorld).2.groups = []
    ∧ "DELETE /groups/:groupId" ∈
      (PowerBiService.initClientProject c2FailEnv 1 "pfx-" baseConfig emptyWorld).2.trace := by
  have h1 : (PowerBiService.initClientProject c2FailEnv 1 "pfx-" baseConfig emptyWorld).1 =
      Except.error PBErr.unexpectedCreationError := rfl
  refine ⟨rfl, ?_, rfl, by decide⟩
  intro h
  rw [h1] at h
  exact PBErr.noConfusion (Except.error.inj h)

/-- C2, witness for the amended theorem at the concrete failing input. -/
theorem C2_amended_failed_import_compensating_delete_witness :
    ∃ wf, PowerBiService.initClientProject c2FailEnv 1 "pfx-" baseConfig emptyWorld =
        (Except.error PBErr.unexpectedCreationError, wf)
      ∧ wf.groups = emptyWorld.groups
      ∧ wf.groups.find? (fun group => group.id == c2FailEnv.createdGroupId) = none
      ∧ "DELETE /groups/:groupId" ∈ wf.trace :=
  C2_amended_failed_import_compensating_delete c2FailEnv 1 "pfx-" baseConfig emptyWorld
    (by decide) (by decide) (by decide) (by decide) (by decide) (by decide) rfl rfl

/-- The world after n iterations of the refresh poll: n reads of the poll
stream, ten seconds of suspension each. -/
def World.afterRefreshPolls (w : World) (n : Nat) : World :=
  { w with refreshPollCount := w.refreshPollCount + n,
           sleptMs := w.sleptMs + 10000 * n,
           trace := w.trace ++
             List.replicate n "GET /groups/:groupId/datasets/:datasetId/refreshes" }

/-- One poll iteration followed by n more advances the world like n + 1. -/
theorem World.afterRefreshPolls_step (w : World) (n : Nat) :
    World.afterRefreshPolls
      { w with refreshPollCount := w.refreshPollCount + 1,
               sleptMs := w.sleptMs + 10000,
               trace := w.trace ++ ["GET /groups/:groupId/datasets/:datasetId/refreshes"] } n
    = World.afterRefreshPolls w (n + 1) := by
  simp only [World.afterRefreshPolls]
  simp [List.replicate_succ, Nat.mul_succ]
  constructor
  · omega
  · omega

/-- One iteration is exactly `afterRefreshPolls 1`. -/
theorem World.afterRefreshPolls_one (w : World) :
    World.afterRefreshPolls w 1 =
      { w with refreshPollCount := w.refreshPollCount + 1,
               sleptMs := w.sleptMs + 10000,
               trace := w.trace ++ ["GET /groups/:groupId/datasets/:datasetId/refreshes"] } := by
  simp [World.afterRefreshPolls]

namespace PowerBiService

/-- Unfolding of one iteration of the refresh poll loop. -/
theorem refreshPollLoopGo_succ_run (env : Env) {groupId datasetId : String}
    (hg : groupId ≠ "") (hd : datasetId ≠ "") (left : Nat) (w : World) :
    refreshPollLoopGo env groupId datasetId (left + 1) w =
      (if 1 ≤ left ∧ allRefreshesInFinalState (some (env.refreshPoll w.refreshPollCount)) = false
       then refreshPollLoopGo env groupId datasetId left
              { w with refreshPollCount := w.refreshPollCount + 1,
                       sleptMs := w.sleptMs + 10000,
                       trace := w.trace ++ ["GET /groups/:groupId/datasets/:datasetId/refreshes"] }
       else (Except.ok (allRefreshesInFinalState (some (env.refreshPoll w.refreshPollCount))),
              { w with refreshPollCount := w.refreshPollCount + 1,
                       sleptMs := w.sleptMs + 10000,
                       trace := w.trace ++ ["GET /groups/:groupId/datasets/:datasetId/refreshes"] })) := by
  simp only [refreshPollLoopGo]
  rw [PBM.bind_ok (PBM.sleep_run 10000 w)]
  rw [PBM.bind_ok (getDatasetRefreshes_run env ⟨hg, hd⟩ _)]
  dsimp only
  by_cases hc : 1 ≤ left ∧ allRefreshesInFinalState (some (env.refreshPoll w.refreshPollCount)) = false
  · rw [if_pos hc, if_pos hc]
  · rw [if_neg hc, if_neg hc]
    rfl

end PowerBiService

namespace PowerBiService

/-- The refresh poll loop with budget `left ≥ 1` always terminates normally:
it performs between 1 and `left` iterations — each costing one poll read and
ten seconds of suspension — and returns the final-state verdict of the last
poll it read. -/
theorem refreshPollLoopGo_bounded (env : Env) {groupId datasetId : String}
    (hg : groupId ≠ "") (hd : datasetId ≠ "") :
    ∀ (left : Nat) (w : World), 1 ≤ left →
      ∃ n b, 1 ≤ n ∧ n ≤ left
        ∧ refreshPollLoopGo env groupId datasetId left w =
            (Except.ok b, World.afterRefreshPolls w n)
        ∧ b = allRefreshesInFinalState
            (some (env.refreshPoll (w.refreshPollCount + (n - 1)))) := by
  intro left
  induction left with
  | zero => intro w h; omega
  | succ l ih =>
      intro w _
      rw [refreshPollLoopGo_succ_run env hg hd l w]
      by_cases hc : 1 ≤ l ∧ allRefreshesInFinalState
          (some (env.refreshPoll w.refreshPollCount)) = false
      · rw [if_pos hc]
        obtain ⟨n, b, hn1, hnl, hrun, hb⟩ := ih
          { w with refreshPollCount := w.refreshPollCount + 1,
                   sleptMs := w.sleptMs + 10000,
                   trace := w.trace ++ ["GET /groups/:groupId/datasets/:datasetId/refreshes"] }
          hc.1
        refine ⟨n + 1, b, by omega, by omega, ?_, ?_⟩
        · rw [hrun, World.afterRefreshPolls_step]
        · rw [hb]
          have : w.refreshPollCount + 1 + (n - 1) = w.refreshPollCount + (n + 1 - 1) := by
            omega
          rw [this]
      · rw [if_neg hc]
        refine ⟨1, allRefreshesInFinalState (some (env.refreshPoll w.refreshPollCount)),
          le_refl 1, by omega, ?_, by simp⟩
        rw [World.afterRefreshPolls_one]

/-- The refresh poll loop stops at the first final poll: if polls 0..j-1 are
non-final and poll j is final, with j within the budget, the loop performs
exactly j + 1 iterations and returns true. -/
theorem refreshPollLoopGo_first_final (env : Env) {groupId datasetId : String}
    (hg : groupId ≠ "") (hd : datasetId ≠ "") :
    ∀ (j left : Nat) (w : World), j + 1 ≤ left →
      (∀ i, i < j → allRefreshesInFinalState
        (some (env.refreshPoll (w.refreshPollCount + i))) = false) →
      allRefreshesInFinalState (some (env.refreshPoll (w.refreshPollCount + j))) = true →
      refreshPollLoopGo env groupId datasetId left w =
        (Except.ok true, World.afterRefreshPolls w (j + 1)) := by
  intro j
  induction j with
  | zero =>
      intro left w hle _ hj
      obtain ⟨l, rfl⟩ : ∃ l, left = l + 1 := ⟨left - 1, by omega⟩
      rw [refreshPollLoopGo_succ_run env hg hd l w]
      rw [Nat.add_zero] at hj
      rw [if_neg (by simp [hj])]
      rw [World.afterRefreshPolls_one, hj]
  | succ j ih =>
      intro left w hle hlt hj
      obtain ⟨l, rfl⟩ : ∃ l, left = l + 1 := ⟨left - 1, by omega⟩
      rw [refreshPollLoopGo_succ_run env hg hd l w]
      have h0 : allRefreshesInFinalState (some (env.refreshPoll w.refreshPollCount)) = false := by
        have := hlt 0 (by omega)
        rwa [Nat.add_zero] at this
      rw [if_pos ⟨by omega, h0⟩]
      rw [ih l
        { w with refreshPollCount := w.refreshPollCount + 1,
                 sleptMs := w.sleptMs + 10000,
                 trace := w.trace ++ ["GET /groups/:groupId/datasets/:datasetId/refreshes"] }
        (by omega)
        (by
          intro i hi
          have := hlt (i + 1) (by omega)
          dsimp only
          rw [show w.refreshPollCount + 1 + i = w.refreshPollCount + (i + 1) by omega]
          exact this)
        (by
          dsimp only
          rw [show w.refreshPollCount + 1 + j = w.refreshPollCount + (j + 1) by omega]
          exact hj)]
      rw [World.afterRefreshPolls_step]

/-- When no poll within the budget is final, the loop exhausts the budget:
exactly `left` iterations, returning false and raising nothing. -/
theorem refreshPollLoopGo_exhausts (env : Env) {groupId datasetId : String}
    (hg : groupId ≠ "") (hd : datasetId ≠ "") :
    ∀ (left : Nat) (w : World), 1 ≤ left →
      (∀ i, i < left → allRefreshesInFinalState
        (some (env.refreshPoll (w.refreshPollCount + i))) = false) →
      refreshPollLoopGo env groupId datasetId left w =
        (Except.ok false, World.afterRefreshPolls w left) := by
  intro left
  induction left with
  | zero => intro w h; omega
  | succ l ih =>
      intro w _ hall
      rw [refreshPollLoopGo_succ_run env hg hd l w]
      have h0 : allRefreshesInFinalState (some (env.refreshPoll w.refreshPollCount)) = false := by
        have := hall 0 (by omega)
        rwa [Nat.add_zero] at this
      by_cases hl1 : 1 ≤ l
      · rw [if_pos ⟨hl1, h0⟩]
        rw [ih
          { w with refreshPollCount := w.refreshPollCount + 1,
                   sleptMs := w.sleptMs + 10000,
                   trace := w.trace ++ ["GET /groups/:groupId/datasets/:datasetId/refreshes"] }
          hl1
          (by
            intro i hi
            have := hall (i + 1) (by omega)
            dsimp only
            rw [show w.refreshPollCount + 1 + i = w.refreshPollCount + (i + 1) by omega]
            exact this)]
        rw [World.afterRefreshPolls_step]
      · have hl0 : l = 0 := by omega
        subst hl0
        rw [if_neg (by simp)]
        rw [World.afterRefreshPolls_one, h0]

end PowerBiService

namespace PowerBiService

/-- Generic `pure` of the monad instance is `PBM.pure`. -/
theorem PBM.pure_eq {α : Type} (a : α) : (pure a : PBM α) = PBM.pure a := rfl

/-- Every run of `mapM reportConvertor` over reports with non-empty ids
succeeds, with results and extra trace independent of the entry world. -/
theorem reportsMapM_run (env : Env) {groupId : String} (hg : groupId ≠ "") :
    ∀ (reports : List PBIReport), (∀ r ∈ reports, r.id ≠ "") →
      ∃ res tr, ∀ w : World,
        (reports.mapM (fun report => reportConvertor env groupId report) : PBM _) w =
          (Except.ok res, { w with trace := w.trace ++ tr }) := by
  intro reports
  induction reports with
  | nil =>
      intro _
      refine ⟨[], [], fun w => ?_⟩
      simp [List.mapM, List.mapM.loop, PBM.pure_eq, PBM.pure]
  | cons r rest ih =>
      intro hids
      obtain ⟨res, tr, hrest⟩ := ih (fun x hx => hids x (List.mem_cons_of_mem r hx))
      refine ⟨{ id := r.id, name := r.name, embedUrl := r.embedUrl, webUrl := r.webUrl,
                pages := (env.pagesOf r.id).map reportPageConvertor } :: res,
        "GET /groups/:groupId/reports/:reportId/pages" :: tr, fun w => ?_⟩
      rw [List.mapM_cons]
      rw [PBM.bind_ok (reportConvertor_run env hg (hids r (List.mem_cons_self r rest)) w)]
      rw [PBM.bind_ok (hrest _)]
      simp [PBM.pure_eq, PBM.pure, List.append_assoc]

end PowerBiService

theorem importPbix_success_nonfinal_run
    (env : Env) (fuel : Nat) (groupId : String) (config : PowerBiConfigDto) (w : World)
    (pg : PBIGroup) (datasets : List PBIDataset) (ds : PBIDataset)
    (datasource : PBIDatasource) (srcrest : List PBIDatasource)
    (hg : groupId ≠ "")
    (hcred : config.datasourceCredentials.isSome = true)
    (htg : config.templateGroupId ≠ "")
    (hfindg : w.groups.find? (fun group => group.id == groupId) = some pg)
    (hpg : pg.id ≠ "")
    (himpid : env.importResp.id ≠ "")
    (hfuel : 1 ≤ fuel)
    (himp0 : ∀ k, (env.importPoll k).importState = PBIImportState.Succeeded)
    (hds : env.datasetsResp = some datasets)
    (hfindds : datasets.find? (fun dataset => dataset.name == config.name) = some ds)
    (hdsid : ds.id ≠ "")
    (hsrc : env.datasourcesResp = datasource :: srcrest)
    (hgw : datasource.gatewayId ≠ "")
    (hsrcid : datasource.datasourceId ≠ "")
    (hreps : ∀ r ∈ env.reportsResp, r.id ≠ "")
    (hpolls : ∀ k, PowerBiService.allRefreshesInFinalState
        (some (env.refreshPoll k)) = false) :
    ∃ result wf, PowerBiService.importPbixToWorkspace env fuel groupId config w =
        (Except.ok result, wf)
      ∧ result.dataRefreshed = false
      ∧ wf.refreshPollCount = w.refreshPollCount + 72
      ∧ wf.sleptMs = w.sleptMs + 2000 + 10000 * 72
      ∧ wf.groups = w.groups := by
  obtain ⟨f, rfl⟩ : ∃ f, fuel = f + 1 := ⟨fuel - 1, by omega⟩
  obtain ⟨a2, tr2, hcopy⟩ := PowerBiService.copyUsersFromGroup_run env htg hpg
    { w with trace := w.trace ++ ["GET /groups"] }
  dsimp only at hcopy
  -- the publish loop exits after its first poll, which reports Succeeded
  have hpub : ∀ W : World,
      PowerBiService.importPublishLoop env pg.id (f + 1) env.importResp W =
        (Except.ok (env.importPoll W.importPollCount),
          { W with importPollCount := W.importPollCount + 1,
                   sleptMs := W.sleptMs + 2000,
                   trace := W.trace ++ ["GET /groups/:groupId/imports/:importId"] }) := by
    intro W
    have hnotfail : (env.importPoll W.importPollCount).importState ≠ PBIImportState.Failed := by
      rw [himp0]
      intro hcon
      exact PBIImportState.noConfusion hcon
    have hnotpub : ¬((env.importPoll W.importPollCount).importState =
        PBIImportState.Publishing) := by
      rw [himp0]
      intro hcon
      exact PBIImportState.noConfusion hcon
    simp only [PowerBiService.importPublishLoop]
    rw [PBM.bind_ok (PBM.sleep_run 2000 W)]
    rw [PBM.bind_ok (PowerBiService.getImportInGroup_run_ok env ⟨hpg, himpid⟩
      { W with sleptMs := W.sleptMs + 2000 } hnotfail)]
    try dsimp only
    rw [if_neg hnotpub]
    rfl
  -- the refresh loop exhausts its 72-iteration budget
  have hloop72 : ∀ W : World,
      PowerBiService.refreshPollLoop env pg.id ds.id W =
        (Except.ok false, World.afterRefreshPolls W 72) := by
    intro W
    unfold PowerBiService.refreshPollLoop
    refine PowerBiService.refreshPollLoopGo_exhausts env hpg hdsid 72 W (by omega) ?_
    intro i hi
    exact hpolls _
  -- the parameter update appends a trace independent of the world
  obtain ⟨trp, hupd⟩ : ∃ trp, ∀ W : World,
      PowerBiService.datasetUpdateParameters env pg.id ds.id config.datasourceParams W =
        (Except.ok (), { W with trace := W.trace ++ trp }) := by
    cases hps : config.datasourceParams with
    | nil =>
        refine ⟨[], fun W => ?_⟩
        rw [PowerBiService.datasetUpdateParameters_run_nil env hpg ds.id W]
        simp
    | cons p ps =>
        refine ⟨["POST /groups/:groupId/datasets/:datasetId/Default.UpdateParameters"],
          fun W => ?_⟩
        rw [PowerBiService.datasetUpdateParameters_run_cons env hpg ds.id p ps W]
  -- the optional schedule installation likewise
  obtain ⟨trs, hsched⟩ : ∃ trs, ∀ W : World,
      (match config.scheduledTimes with
        | some times => PowerBiService.datasetCreateRefreshSchedule env pg.id ds.id times
            config.scheduledDays
        | none => PBM.pure ()) W =
        (Except.ok (), { W with trace := W.trace ++ trs }) := by
    cases hst : config.scheduledTimes with
    | none =>
        refine ⟨[], fun W => ?_⟩
        dsimp only
        simp [PBM.pure]
    | some times =>
        refine ⟨["PATCH /groups/:groupId/datasets/:datasetId/refreshSchedule"], fun W => ?_⟩
        dsimp only
        rw [PowerBiService.datasetCreateRefreshSchedule_run env ⟨hpg, hdsid⟩ times
          config.scheduledDays W]
  -- the report listing and page fetches
  obtain ⟨res, trm, hmap⟩ := PowerBiService.reportsMapM_run env hpg
    (env.reportsResp.filter (fun report => report.datasetId == ds.id))
    (fun r hr => hreps r (List.mem_of_mem_filter hr))
  -- the main chain, rewriting the run inside the existential goal
  unfold PowerBiService.importPbixToWorkspace
  rw [if_pos ⟨hg, hcred⟩]
  rw [PBM.bind_ok (PowerBiService.getGroup_run env hg w)]
  rw [hfindg]
  rw [PBM.bind_ok (PBM.attempt_apply _ _)]
  rw [PBM.bind_ok (PBM.jsGet_some_run _ _)]
  rw [PBM.bind_ok hcopy]
  rw [PBM.bind_ok (PowerBiService.importInGroup_run env hpg _ _ _)]
  rw [PBM.bind_ok (hpub _)]
  rw [PBM.bind_ok (PowerBiService.getGroupDatasets_run env hpg _)]
  rw [hds]
  rw [PBM.bind_ok (PBM.jsGet_some_run _ _)]
  try dsimp only
  rw [hfindds]
  rw [PBM.bind_ok (PBM.jsGet_some_run _ _)]
  try dsimp only
  rw [PBM.bind_ok (PowerBiService.datasetTakeOver_run env hpg _ _)]
  rw [PBM.bind_ok (hupd _)]
  rw [PBM.bind_ok (PowerBiService.listDatasourcesInGroup_run env ⟨hpg, hdsid⟩ _)]
  rw [hsrc]
  rw [show (datasource :: srcrest).head? = some datasource from rfl]
  rw [PBM.bind_ok (PBM.jsGet_some_run _ _)]
  try dsimp only
  obtain ⟨creds, hcreds⟩ : ∃ creds, config.datasourceCredentials = some creds :=
      Option.isSome_iff_exists.mp hcred
  rw [hcreds]
  rw [PBM.bind_ok (PBM.jsGet_some_run _ _)]
  rw [PBM.bind_ok (PowerBiService.gatewayDatasourceUpdate_run env ⟨hgw, hsrcid⟩ _ _)]
  rw [PBM.bind_ok (PowerBiService.datasetRefresh_run env ⟨hpg, hdsid⟩ _)]
  rw [PBM.bind_ok (hloop72 _)]
  rw [PBM.bind_ok (hsched _)]
  rw [PBM.bind_ok (PowerBiService.listReportsInGroupForDataset_run env hpg ds.id _)]
  rw [PBM.bind_ok (hmap _)]
  dsimp only [PBM.pure]
  refine ⟨_, _, rfl, rfl, ?_, ?_, ?_⟩
  · simp [World.afterRefreshPolls]
  · simp [World.afterRefreshPolls]
  · simp [World.afterRefreshPolls]

/-- C3. The refresh poll loop of `importPbixToWorkspace` runs at least one
and at most 72 iterations, each preceded by a ten-second suspension, never
raises, and returns the final-state verdict of the last poll (i); it stops
as soon as all refresh records are in final state (ii); when the budget is
exhausted with records still non-final it returns false after exactly 72
iterations and 720 seconds of suspension (iii); and in that case the
whole provisioning call does not raise: it returns a result whose
`dataRefreshed` field is false (iv). -/
theorem C3_refresh_poll_72_iterations :
    (∀ (env : Env) (groupId datasetId : String) (w : World),
      groupId ≠ "" → datasetId ≠ "" →
      ∃ n b, 1 ≤ n ∧ n ≤ 72
        ∧ PowerBiService.refreshPollLoop env groupId datasetId w =
            (Except.ok b, World.afterRefreshPolls w n)
        ∧ b = PowerBiService.allRefreshesInFinalState
            (some (env.refreshPoll (w.refreshPollCount + (n - 1)))))
    ∧ (∀ (env : Env) (groupId datasetId : String) (w : World) (j : Nat),
        groupId ≠ "" → datasetId ≠ "" → j + 1 ≤ 72 →
        (∀ i, i < j → PowerBiService.allRefreshesInFinalState
          (some (env.refreshPoll (w.refreshPollCount + i))) = false) →
        PowerBiService.allRefreshesInFinalState
          (some (env.refreshPoll (w.refreshPollCount + j))) = true →
        PowerBiService.refreshPollLoop env groupId datasetId w =
          (Except.ok true, World.afterRefreshPolls w (j + 1)))
    ∧ (∀ (env : Env) (groupId datasetId : String) (w : World),
        groupId ≠ "" → datasetId ≠ "" →
        (∀ i, i < 72 → PowerBiService.allRefreshesInFinalState
          (some (env.refreshPoll (w.refreshPollCount + i))) = false) →
        PowerBiService.refreshPollLoop env groupId datasetId w =
          (Except.ok false, World.afterRefreshPolls w 72))
    ∧ (∀ (env : Env) (fuel : Nat) (groupId : String) (config : PowerBiConfigDto) (w : World)
        (pg : PBIGroup) (datasets : List PBIDataset) (ds : PBIDataset)
        (datasource : PBIDatasource) (srcrest : List PBIDatasource),
        groupId ≠ "" → config.datasourceCredentials.isSome = true →
        config.templateGroupId ≠ "" →
        w.groups.find? (fun group => group.id == groupId) = some pg → pg.id ≠ "" →
        env.importResp.id ≠ "" → 1 ≤ fuel →
        (∀ k, (env.importPoll k).importState = PBIImportState.Succeeded) →
        env.datasetsResp = some datasets →
        datasets.find? (fun dataset => dataset.name == config.name) = some ds → ds.id ≠ "" →
        env.datasourcesResp = datasource :: srcrest →
        datasource.gatewayId ≠ "" → datasource.datasourceId ≠ "" →
        (∀ r ∈ env.reportsResp, r.id ≠ "") →
        (∀ k, PowerBiService.allRefreshesInFinalState (some (env.refreshPoll k)) = false) →
        ∃ result wf, PowerBiService.importPbixToWorkspace env fuel groupId config w =
            (Except.ok result, wf)
          ∧ result.dataRefreshed = false
          ∧ wf.refreshPollCount = w.refreshPollCount + 72
          ∧ wf.sleptMs = w.sleptMs + 2000 + 10000 * 72
          ∧ wf.groups = w.groups) := by
  refine ⟨?_, ?_, ?_, ?_⟩
  · intro env groupId datasetId w hg hd
    obtain ⟨n, b, h1, h2, h3, h4⟩ :=
      PowerBiService.refreshPollLoopGo_bounded env hg hd 72 w (by omega)
    exact ⟨n, b, h1, h2, h3, h4⟩
  · intro env groupId datasetId w j hg hd hj hlt hfin
    exact PowerBiService.refreshPollLoopGo_first_final env hg hd j 72 w hj hlt hfin
  · intro env groupId datasetId w hg hd hall
    exact PowerBiService.refreshPollLoopGo_exhausts env hg hd 72 w (by omega) hall
  · intro env fuel groupId config w pg datasets ds datasource srcrest
      hg hcred htg hfindg hpg himpid hfuel himp0 hds hfindds hdsid hsrc hgw hsrcid hreps hpolls
    exact importPbix_success_nonfinal_run env fuel groupId config w pg datasets ds
      datasource srcrest hg hcred htg hfindg hpg himpid hfuel himp0 hds hfindds hdsid
      hsrc hgw hsrcid hreps hpolls
